import Mathlib

/-!
# Verification of the kintsugi-ui component scaffolding engine

Shallow embedding of the scaffolding engine in `src/index.ts` of the
kintsugi-ui MCP server, together with theorems settling the specification
claims about it.

The embedded code:
* the `LIBRARIES` constant (the recognized UI-library identifiers);
* the per-library template records and scaffolders
  (`scaffoldShadcnComponent`, `scaffoldMuiComponent`,
  `scaffoldChakraComponent`, `scaffoldHeadlessComponent`,
  `scaffoldCustomComponent`);
* the dispatcher `scaffoldMultiLibraryComponent`;
* the tool handlers `scaffold_component`, `get_component` and
  `get_design_tokens` (file-system reads are passed in explicitly, since the
  TS code performs them through `fs/promises`; a failed read is `none` /
  `Except.error`).

Template strings are transliterated verbatim from the TS template literals,
with the `${name}` interpolation becoming the `name` argument.  JavaScript
object-literal lookup `components[componentType]` over the fixed records is
embedded as association-list lookup (`lookupTpl`), and
`components[componentType] || components.button` as `Option.getD` of the
button template.
-/

/-- One entry of the `props` array accepted by the `scaffold_component` tool
(schema: `{name, type, required?, defaultValue?}`). -/
structure PropSpec where
  name : String
  type : String
  required : Option Bool
  defaultValue : Option String
deriving DecidableEq

/-- The value a tool handler returns: the text content plus the `isError`
flag (absent `isError` in TS is embedded as `false`). -/
structure ToolResult where
  text : String
  isError : Bool
deriving DecidableEq

/-- `const LIBRARIES = ["shadcn", "mui", "chakra", "headless", "custom"] as
const` (src/index.ts line 19): the recognized UI-library identifiers. -/
def LIBRARIES : List String := ["shadcn", "mui", "chakra", "headless", "custom"]
/-- Template string for the `button` entry of the `shadcn` scaffolder,
transliterated from src/index.ts (the TS interpolation of the component
name becomes the `name` argument). -/
def shadcn_button (name : String) : String :=
  "import * as React from \"react\"\n"
    ++ "import \x7b Slot \x7d from \"@radix-ui/react-slot\"\n"
    ++ "import \x7b cva, type VariantProps \x7d from \"class-variance-authority\"\n"
    ++ "import \x7b cn \x7d from \"@/lib/utils\"\n"
    ++ "\n"
    ++ "const buttonVariants = cva(\n"
    ++ "  \"inline-flex items-center justify-center whitespace-nowrap rounded-md text-sm font-medium ring-offset-background transition-colors focus-visible:outline-none focus-visible:ring-2 focus-visible:ring-ring focus-visible:ring-offset-2 disabled:pointer-events-none disabled:opacity-50\",\n"
    ++ "  \x7b\n"
    ++ "    variants: \x7b\n"
    ++ "      variant: \x7b\n"
    ++ "        default: \"bg-primary text-primary-foreground hover:bg-primary/90\",\n"
    ++ "        destructive: \"bg-destructive text-destructive-foreground hover:bg-destructive/90\",\n"
    ++ "        outline: \"border border-input bg-background hover:bg-accent hover:text-accent-foreground\",\n"
    ++ "        secondary: \"bg-secondary text-secondary-foreground hover:bg-secondary/80\",\n"
    ++ "        ghost: \"hover:bg-accent hover:text-accent-foreground\",\n"
    ++ "        link: \"text-primary underline-offset-4 hover:underline\",\n"
    ++ "      \x7d,\n"
    ++ "      size: \x7b\n"
    ++ "        default: \"h-10 px-4 py-2\",\n"
    ++ "        sm: \"h-9 rounded-md px-3\",\n"
    ++ "        lg: \"h-11 rounded-md px-8\",\n"
    ++ "        icon: \"h-10 w-10\",\n"
    ++ "      \x7d,\n"
    ++ "    \x7d,\n"
    ++ "    defaultVariants: \x7b\n"
    ++ "      variant: \"default\",\n"
    ++ "      size: \"default\",\n"
    ++ "    \x7d,\n"
    ++ "  \x7d\n"
    ++ ")\n"
    ++ "\n"
    ++ "export interface " ++ name ++ "Props\n"
    ++ "  extends React.ButtonHTMLAttributes<HTMLButtonElement>,\n"
    ++ "    VariantProps<typeof buttonVariants> \x7b\n"
    ++ "  asChild?: boolean\n"
    ++ "\x7d\n"
    ++ "\n"
    ++ "const " ++ name ++ " = React.forwardRef<HTMLButtonElement, " ++ name ++ "Props>(\n"
    ++ "  (\x7b className, variant, size, asChild = false, ...props \x7d, ref) => \x7b\n"
    ++ "    const Comp = asChild ? Slot : \"button\"\n"
    ++ "    return (\n"
    ++ "      <Comp\n"
    ++ "        className=\x7bcn(buttonVariants(\x7b variant, size, className \x7d))\x7d\n"
    ++ "        ref=\x7bref\x7d\n"
    ++ "        \x7b...props\x7d\n"
    ++ "      />\n"
    ++ "    )\n"
    ++ "  \x7d\n"
    ++ ")\n"
    ++ name ++ ".displayName = \"" ++ name ++ "\"\n"
    ++ "\n"
    ++ "export \x7b " ++ name ++ ", buttonVariants \x7d"

/-- Template string for the `input` entry of the `shadcn` scaffolder,
transliterated from src/index.ts (the TS interpolation of the component
name becomes the `name` argument). -/
def shadcn_input (name : String) : String :=
  "import * as React from \"react\"\n"
    ++ "import \x7b cn \x7d from \"@/lib/utils\"\n"
    ++ "\n"
    ++ "export interface " ++ name ++ "Props extends React.InputHTMLAttributes<HTMLInputElement> \x7b\x7d\n"
    ++ "\n"
    ++ "const " ++ name ++ " = React.forwardRef<HTMLInputElement, " ++ name ++ "Props>(\n"
    ++ "  (\x7b className, type, ...props \x7d, ref) => \x7b\n"
    ++ "    return (\n"
    ++ "      <input\n"
    ++ "        type=\x7btype\x7d\n"
    ++ "        className=\x7bcn(\n"
    ++ "          \"flex h-10 w-full rounded-md border border-input bg-background px-3 py-2 text-sm ring-offset-background file:border-0 file:bg-transparent file:text-sm file:font-medium placeholder:text-muted-foreground focus-visible:outline-none focus-visible:ring-2 focus-visible:ring-ring focus-visible:ring-offset-2 disabled:cursor-not-allowed disabled:opacity-50\",\n"
    ++ "          className\n"
    ++ "        )\x7d\n"
    ++ "        ref=\x7bref\x7d\n"
    ++ "        \x7b...props\x7d\n"
    ++ "      />\n"
    ++ "    )\n"
    ++ "  \x7d\n"
    ++ ")\n"
    ++ name ++ ".displayName = \"" ++ name ++ "\"\n"
    ++ "\n"
    ++ "export \x7b " ++ name ++ " \x7d"

/-- Template string for the `select` entry of the `shadcn` scaffolder,
transliterated from src/index.ts (the TS interpolation of the component
name becomes the `name` argument). -/
def shadcn_select (name : String) : String :=
  "import * as React from \"react\"\n"
    ++ "import * as SelectPrimitive from \"@radix-ui/react-select\"\n"
    ++ "import \x7b Check, ChevronDown, ChevronUp \x7d from \"lucide-react\"\n"
    ++ "import \x7b cn \x7d from \"@/lib/utils\"\n"
    ++ "\n"
    ++ "const " ++ name ++ " = SelectPrimitive.Root\n"
    ++ "const " ++ name ++ "Group = SelectPrimitive.Group\n"
    ++ "const " ++ name ++ "Value = SelectPrimitive.Value\n"
    ++ "\n"
    ++ "const " ++ name ++ "Trigger = React.forwardRef<\n"
    ++ "  React.ElementRef<typeof SelectPrimitive.Trigger>,\n"
    ++ "  React.ComponentPropsWithoutRef<typeof SelectPrimitive.Trigger>\n"
    ++ ">((\x7b className, children, ...props \x7d, ref) => (\n"
    ++ "  <SelectPrimitive.Trigger\n"
    ++ "    ref=\x7bref\x7d\n"
    ++ "    className=\x7bcn(\n"
    ++ "      \"flex h-10 w-full items-center justify-between rounded-md border border-input bg-background px-3 py-2 text-sm ring-offset-background placeholder:text-muted-foreground focus:outline-none focus:ring-2 focus:ring-ring focus:ring-offset-2 disabled:cursor-not-allowed disabled:opacity-50 [&>span]:line-clamp-1\",\n"
    ++ "      className\n"
    ++ "    )\x7d\n"
    ++ "    \x7b...props\x7d\n"
    ++ "  >\n"
    ++ "    \x7bchildren\x7d\n"
    ++ "    <SelectPrimitive.Icon asChild>\n"
    ++ "      <ChevronDown className=\"h-4 w-4 opacity-50\" />\n"
    ++ "    </SelectPrimitive.Icon>\n"
    ++ "  </SelectPrimitive.Trigger>\n"
    ++ "))\n"
    ++ name ++ "Trigger.displayName = SelectPrimitive.Trigger.displayName\n"
    ++ "\n"
    ++ "const " ++ name ++ "Content = React.forwardRef<\n"
    ++ "  React.ElementRef<typeof SelectPrimitive.Content>,\n"
    ++ "  React.ComponentPropsWithoutRef<typeof SelectPrimitive.Content>\n"
    ++ ">((\x7b className, children, position = \"popper\", ...props \x7d, ref) => (\n"
    ++ "  <SelectPrimitive.Portal>\n"
    ++ "    <SelectPrimitive.Content\n"
    ++ "      ref=\x7bref\x7d\n"
    ++ "      className=\x7bcn(\n"
    ++ "        \"relative z-50 max-h-96 min-w-[8rem] overflow-hidden rounded-md border bg-popover text-popover-foreground shadow-md data-[state=open]:animate-in data-[state=closed]:animate-out data-[state=closed]:fade-out-0 data-[state=open]:fade-in-0 data-[state=closed]:zoom-out-95 data-[state=open]:zoom-in-95 data-[side=bottom]:slide-in-from-top-2 data-[side=left]:slide-in-from-right-2 data-[side=right]:slide-in-from-left-2 data-[side=top]:slide-in-from-bottom-2\",\n"
    ++ "        position === \"popper\" &&\n"
    ++ "          \"data-[side=bottom]:translate-y-1 data-[side=left]:-translate-x-1 data-[side=right]:translate-x-1 data-[side=top]:-translate-y-1\",\n"
    ++ "        className\n"
    ++ "      )\x7d\n"
    ++ "      position=\x7bposition\x7d\n"
    ++ "      \x7b...props\x7d\n"
    ++ "    >\n"
    ++ "      <SelectPrimitive.Viewport\n"
    ++ "        className=\x7bcn(\n"
    ++ "          \"p-1\",\n"
    ++ "          position === \"popper\" &&\n"
    ++ "            \"h-[var(--radix-select-trigger-height)] w-full min-w-[var(--radix-select-trigger-width)]\"\n"
    ++ "        )\x7d\n"
    ++ "      >\n"
    ++ "        \x7bchildren\x7d\n"
    ++ "      </SelectPrimitive.Viewport>\n"
    ++ "    </SelectPrimitive.Content>\n"
    ++ "  </SelectPrimitive.Portal>\n"
    ++ "))\n"
    ++ name ++ "Content.displayName = SelectPrimitive.Content.displayName\n"
    ++ "\n"
    ++ "const " ++ name ++ "Item = React.forwardRef<\n"
    ++ "  React.ElementRef<typeof SelectPrimitive.Item>,\n"
    ++ "  React.ComponentPropsWithoutRef<typeof SelectPrimitive.Item>\n"
    ++ ">((\x7b className, children, ...props \x7d, ref) => (\n"
    ++ "  <SelectPrimitive.Item\n"
    ++ "    ref=\x7bref\x7d\n"
    ++ "    className=\x7bcn(\n"
    ++ "      \"relative flex w-full cursor-default select-none items-center rounded-sm py-1.5 pl-8 pr-2 text-sm outline-none focus:bg-accent focus:text-accent-foreground data-[disabled]:pointer-events-none data-[disabled]:opacity-50\",\n"
    ++ "      className\n"
    ++ "    )\x7d\n"
    ++ "    \x7b...props\x7d\n"
    ++ "  >\n"
    ++ "    <span className=\"absolute left-2 flex h-3.5 w-3.5 items-center justify-center\">\n"
    ++ "      <SelectPrimitive.ItemIndicator>\n"
    ++ "        <Check className=\"h-4 w-4\" />\n"
    ++ "      </SelectPrimitive.ItemIndicator>\n"
    ++ "    </span>\n"
    ++ "    <SelectPrimitive.ItemText>\x7bchildren\x7d</SelectPrimitive.ItemText>\n"
    ++ "  </SelectPrimitive.Item>\n"
    ++ "))\n"
    ++ name ++ "Item.displayName = SelectPrimitive.Item.displayName\n"
    ++ "\n"
    ++ "export \x7b\n"
    ++ "  " ++ name ++ ",\n"
    ++ "  " ++ name ++ "Group,\n"
    ++ "  " ++ name ++ "Value,\n"
    ++ "  " ++ name ++ "Trigger,\n"
    ++ "  " ++ name ++ "Content,\n"
    ++ "  " ++ name ++ "Item,\n"
    ++ "\x7d"

/-- Template string for the `modal` entry of the `shadcn` scaffolder,
transliterated from src/index.ts (the TS interpolation of the component
name becomes the `name` argument). -/
def shadcn_modal (name : String) : String :=
  "import * as React from \"react\"\n"
    ++ "import * as DialogPrimitive from \"@radix-ui/react-dialog\"\n"
    ++ "import \x7b X \x7d from \"lucide-react\"\n"
    ++ "import \x7b cn \x7d from \"@/lib/utils\"\n"
    ++ "\n"
    ++ "const " ++ name ++ " = DialogPrimitive.Root\n"
    ++ "const " ++ name ++ "Trigger = DialogPrimitive.Trigger\n"
    ++ "const " ++ name ++ "Portal = DialogPrimitive.Portal\n"
    ++ "const " ++ name ++ "Close = DialogPrimitive.Close\n"
    ++ "\n"
    ++ "const " ++ name ++ "Overlay = React.forwardRef<\n"
    ++ "  React.ElementRef<typeof DialogPrimitive.Overlay>,\n"
    ++ "  React.ComponentPropsWithoutRef<typeof DialogPrimitive.Overlay>\n"
    ++ ">((\x7b className, ...props \x7d, ref) => (\n"
    ++ "  <DialogPrimitive.Overlay\n"
    ++ "    ref=\x7bref\x7d\n"
    ++ "    className=\x7bcn(\n"
    ++ "      \"fixed inset-0 z-50 bg-black/80 data-[state=open]:animate-in data-[state=closed]:animate-out data-[state=closed]:fade-out-0 data-[state=open]:fade-in-0\",\n"
    ++ "      className\n"
    ++ "    )\x7d\n"
    ++ "    \x7b...props\x7d\n"
    ++ "  />\n"
    ++ "))\n"
    ++ name ++ "Overlay.displayName = DialogPrimitive.Overlay.displayName\n"
    ++ "\n"
    ++ "const " ++ name ++ "Content = React.forwardRef<\n"
    ++ "  React.ElementRef<typeof DialogPrimitive.Content>,\n"
    ++ "  React.ComponentPropsWithoutRef<typeof DialogPrimitive.Content>\n"
    ++ ">((\x7b className, children, ...props \x7d, ref) => (\n"
    ++ "  <" ++ name ++ "Portal>\n"
    ++ "    <" ++ name ++ "Overlay />\n"
    ++ "    <DialogPrimitive.Content\n"
    ++ "      ref=\x7bref\x7d\n"
    ++ "      className=\x7bcn(\n"
    ++ "        \"fixed left-[50%] top-[50%] z-50 grid w-full max-w-lg translate-x-[-50%] translate-y-[-50%] gap-4 border bg-background p-6 shadow-lg duration-200 data-[state=open]:animate-in data-[state=closed]:animate-out data-[state=closed]:fade-out-0 data-[state=open]:fade-in-0 data-[state=closed]:zoom-out-95 data-[state=open]:zoom-in-95 data-[state=closed]:slide-out-to-left-1/2 data-[state=closed]:slide-out-to-top-[48%] data-[state=open]:slide-in-from-left-1/2 data-[state=open]:slide-in-from-top-[48%] sm:rounded-lg\",\n"
    ++ "        className\n"
    ++ "      )\x7d\n"
    ++ "      \x7b...props\x7d\n"
    ++ "    >\n"
    ++ "      \x7bchildren\x7d\n"
    ++ "      <DialogPrimitive.Close className=\"absolute right-4 top-4 rounded-sm opacity-70 ring-offset-background transition-opacity hover:opacity-100 focus:outline-none focus:ring-2 focus:ring-ring focus:ring-offset-2 disabled:pointer-events-none data-[state=open]:bg-accent data-[state=open]:text-muted-foreground\">\n"
    ++ "        <X className=\"h-4 w-4\" />\n"
    ++ "        <span className=\"sr-only\">Close</span>\n"
    ++ "      </DialogPrimitive.Close>\n"
    ++ "    </DialogPrimitive.Content>\n"
    ++ "  </" ++ name ++ "Portal>\n"
    ++ "))\n"
    ++ name ++ "Content.displayName = DialogPrimitive.Content.displayName\n"
    ++ "\n"
    ++ "const " ++ name ++ "Header = (\x7b className, ...props \x7d: React.HTMLAttributes<HTMLDivElement>) => (\n"
    ++ "  <div className=\x7bcn(\"flex flex-col space-y-1.5 text-center sm:text-left\", className)\x7d \x7b...props\x7d />\n"
    ++ ")\n"
    ++ name ++ "Header.displayName = \"" ++ name ++ "Header\"\n"
    ++ "\n"
    ++ "const " ++ name ++ "Footer = (\x7b className, ...props \x7d: React.HTMLAttributes<HTMLDivElement>) => (\n"
    ++ "  <div className=\x7bcn(\"flex flex-col-reverse sm:flex-row sm:justify-end sm:space-x-2\", className)\x7d \x7b...props\x7d />\n"
    ++ ")\n"
    ++ name ++ "Footer.displayName = \"" ++ name ++ "Footer\"\n"
    ++ "\n"
    ++ "const " ++ name ++ "Title = React.forwardRef<\n"
    ++ "  React.ElementRef<typeof DialogPrimitive.Title>,\n"
    ++ "  React.ComponentPropsWithoutRef<typeof DialogPrimitive.Title>\n"
    ++ ">((\x7b className, ...props \x7d, ref) => (\n"
    ++ "  <DialogPrimitive.Title\n"
    ++ "    ref=\x7bref\x7d\n"
    ++ "    className=\x7bcn(\"text-lg font-semibold leading-none tracking-tight\", className)\x7d\n"
    ++ "    \x7b...props\x7d\n"
    ++ "  />\n"
    ++ "))\n"
    ++ name ++ "Title.displayName = DialogPrimitive.Title.displayName\n"
    ++ "\n"
    ++ "const " ++ name ++ "Description = React.forwardRef<\n"
    ++ "  React.ElementRef<typeof DialogPrimitive.Description>,\n"
    ++ "  React.ComponentPropsWithoutRef<typeof DialogPrimitive.Description>\n"
    ++ ">((\x7b className, ...props \x7d, ref) => (\n"
    ++ "  <DialogPrimitive.Description\n"
    ++ "    ref=\x7bref\x7d\n"
    ++ "    className=\x7bcn(\"text-sm text-muted-foreground\", className)\x7d\n"
    ++ "    \x7b...props\x7d\n"
    ++ "  />\n"
    ++ "))\n"
    ++ name ++ "Description.displayName = DialogPrimitive.Description.displayName\n"
    ++ "\n"
    ++ "export \x7b\n"
    ++ "  " ++ name ++ ",\n"
    ++ "  " ++ name ++ "Portal,\n"
    ++ "  " ++ name ++ "Overlay,\n"
    ++ "  " ++ name ++ "Close,\n"
    ++ "  " ++ name ++ "Trigger,\n"
    ++ "  " ++ name ++ "Content,\n"
    ++ "  " ++ name ++ "Header,\n"
    ++ "  " ++ name ++ "Footer,\n"
    ++ "  " ++ name ++ "Title,\n"
    ++ "  " ++ name ++ "Description,\n"
    ++ "\x7d"

/-- Template string for the `card` entry of the `shadcn` scaffolder,
transliterated from src/index.ts (the TS interpolation of the component
name becomes the `name` argument). -/
def shadcn_card (name : String) : String :=
  "import * as React from \"react\"\n"
    ++ "import \x7b cn \x7d from \"@/lib/utils\"\n"
    ++ "\n"
    ++ "const " ++ name ++ " = React.forwardRef<HTMLDivElement, React.HTMLAttributes<HTMLDivElement>>(\n"
    ++ "  (\x7b className, ...props \x7d, ref) => (\n"
    ++ "    <div\n"
    ++ "      ref=\x7bref\x7d\n"
    ++ "      className=\x7bcn(\"rounded-lg border bg-card text-card-foreground shadow-sm\", className)\x7d\n"
    ++ "      \x7b...props\x7d\n"
    ++ "    />\n"
    ++ "  )\n"
    ++ ")\n"
    ++ name ++ ".displayName = \"" ++ name ++ "\"\n"
    ++ "\n"
    ++ "const " ++ name ++ "Header = React.forwardRef<HTMLDivElement, React.HTMLAttributes<HTMLDivElement>>(\n"
    ++ "  (\x7b className, ...props \x7d, ref) => (\n"
    ++ "    <div ref=\x7bref\x7d className=\x7bcn(\"flex flex-col space-y-1.5 p-6\", className)\x7d \x7b...props\x7d />\n"
    ++ "  )\n"
    ++ ")\n"
    ++ name ++ "Header.displayName = \"" ++ name ++ "Header\"\n"
    ++ "\n"
    ++ "const " ++ name ++ "Title = React.forwardRef<HTMLParagraphElement, React.HTMLAttributes<HTMLHeadingElement>>(\n"
    ++ "  (\x7b className, ...props \x7d, ref) => (\n"
    ++ "    <h3 ref=\x7bref\x7d className=\x7bcn(\"text-2xl font-semibold leading-none tracking-tight\", className)\x7d \x7b...props\x7d />\n"
    ++ "  )\n"
    ++ ")\n"
    ++ name ++ "Title.displayName = \"" ++ name ++ "Title\"\n"
    ++ "\n"
    ++ "const " ++ name ++ "Description = React.forwardRef<HTMLParagraphElement, React.HTMLAttributes<HTMLParagraphElement>>(\n"
    ++ "  (\x7b className, ...props \x7d, ref) => (\n"
    ++ "    <p ref=\x7bref\x7d className=\x7bcn(\"text-sm text-muted-foreground\", className)\x7d \x7b...props\x7d />\n"
    ++ "  )\n"
    ++ ")\n"
    ++ name ++ "Description.displayName = \"" ++ name ++ "Description\"\n"
    ++ "\n"
    ++ "const " ++ name ++ "Content = React.forwardRef<HTMLDivElement, React.HTMLAttributes<HTMLDivElement>>(\n"
    ++ "  (\x7b className, ...props \x7d, ref) => (\n"
    ++ "    <div ref=\x7bref\x7d className=\x7bcn(\"p-6 pt-0\", className)\x7d \x7b...props\x7d />\n"
    ++ "  )\n"
    ++ ")\n"
    ++ name ++ "Content.displayName = \"" ++ name ++ "Content\"\n"
    ++ "\n"
    ++ "const " ++ name ++ "Footer = React.forwardRef<HTMLDivElement, React.HTMLAttributes<HTMLDivElement>>(\n"
    ++ "  (\x7b className, ...props \x7d, ref) => (\n"
    ++ "    <div ref=\x7bref\x7d className=\x7bcn(\"flex items-center p-6 pt-0\", className)\x7d \x7b...props\x7d />\n"
    ++ "  )\n"
    ++ ")\n"
    ++ name ++ "Footer.displayName = \"" ++ name ++ "Footer\"\n"
    ++ "\n"
    ++ "export \x7b " ++ name ++ ", " ++ name ++ "Header, " ++ name ++ "Footer, " ++ name ++ "Title, " ++ name ++ "Description, " ++ name ++ "Content \x7d"

/-- Template string for the `alert` entry of the `shadcn` scaffolder,
transliterated from src/index.ts (the TS interpolation of the component
name becomes the `name` argument). -/
def shadcn_alert (name : String) : String :=
  "import * as React from \"react\"\n"
    ++ "import \x7b cva, type VariantProps \x7d from \"class-variance-authority\"\n"
    ++ "import \x7b cn \x7d from \"@/lib/utils\"\n"
    ++ "\n"
    ++ "const alertVariants = cva(\n"
    ++ "  \"relative w-full rounded-lg border p-4 [&>svg~*]:pl-7 [&>svg+div]:translate-y-[-3px] [&>svg]:absolute [&>svg]:left-4 [&>svg]:top-4 [&>svg]:text-foreground\",\n"
    ++ "  \x7b\n"
    ++ "    variants: \x7b\n"
    ++ "      variant: \x7b\n"
    ++ "        default: \"bg-background text-foreground\",\n"
    ++ "        destructive: \"border-destructive/50 text-destructive dark:border-destructive [&>svg]:text-destructive\",\n"
    ++ "      \x7d,\n"
    ++ "    \x7d,\n"
    ++ "    defaultVariants: \x7b\n"
    ++ "      variant: \"default\",\n"
    ++ "    \x7d,\n"
    ++ "  \x7d\n"
    ++ ")\n"
    ++ "\n"
    ++ "const " ++ name ++ " = React.forwardRef<\n"
    ++ "  HTMLDivElement,\n"
    ++ "  React.HTMLAttributes<HTMLDivElement> & VariantProps<typeof alertVariants>\n"
    ++ ">((\x7b className, variant, ...props \x7d, ref) => (\n"
    ++ "  <div ref=\x7bref\x7d role=\"alert\" className=\x7bcn(alertVariants(\x7b variant \x7d), className)\x7d \x7b...props\x7d />\n"
    ++ "))\n"
    ++ name ++ ".displayName = \"" ++ name ++ "\"\n"
    ++ "\n"
    ++ "const " ++ name ++ "Title = React.forwardRef<HTMLParagraphElement, React.HTMLAttributes<HTMLHeadingElement>>(\n"
    ++ "  (\x7b className, ...props \x7d, ref) => (\n"
    ++ "    <h5 ref=\x7bref\x7d className=\x7bcn(\"mb-1 font-medium leading-none tracking-tight\", className)\x7d \x7b...props\x7d />\n"
    ++ "  )\n"
    ++ ")\n"
    ++ name ++ "Title.displayName = \"" ++ name ++ "Title\"\n"
    ++ "\n"
    ++ "const " ++ name ++ "Description = React.forwardRef<HTMLParagraphElement, React.HTMLAttributes<HTMLParagraphElement>>(\n"
    ++ "  (\x7b className, ...props \x7d, ref) => (\n"
    ++ "    <div ref=\x7bref\x7d className=\x7bcn(\"text-sm [&_p]:leading-relaxed\", className)\x7d \x7b...props\x7d />\n"
    ++ "  )\n"
    ++ ")\n"
    ++ name ++ "Description.displayName = \"" ++ name ++ "Description\"\n"
    ++ "\n"
    ++ "export \x7b " ++ name ++ ", " ++ name ++ "Title, " ++ name ++ "Description \x7d"

/-- Template string for the `tabs` entry of the `shadcn` scaffolder,
transliterated from src/index.ts (the TS interpolation of the component
name becomes the `name` argument). -/
def shadcn_tabs (name : String) : String :=
  "import * as React from \"react\"\n"
    ++ "import * as TabsPrimitive from \"@radix-ui/react-tabs\"\n"
    ++ "import \x7b cn \x7d from \"@/lib/utils\"\n"
    ++ "\n"
    ++ "const " ++ name ++ " = TabsPrimitive.Root\n"
    ++ "\n"
    ++ "const " ++ name ++ "List = React.forwardRef<\n"
    ++ "  React.ElementRef<typeof TabsPrimitive.List>,\n"
    ++ "  React.ComponentPropsWithoutRef<typeof TabsPrimitive.List>\n"
    ++ ">((\x7b className, ...props \x7d, ref) => (\n"
    ++ "  <TabsPrimitive.List\n"
    ++ "    ref=\x7bref\x7d\n"
    ++ "    className=\x7bcn(\n"
    ++ "      \"inline-flex h-10 items-center justify-center rounded-md bg-muted p-1 text-muted-foreground\",\n"
    ++ "      className\n"
    ++ "    )\x7d\n"
    ++ "    \x7b...props\x7d\n"
    ++ "  />\n"
    ++ "))\n"
    ++ name ++ "List.displayName = TabsPrimitive.List.displayName\n"
    ++ "\n"
    ++ "const " ++ name ++ "Trigger = React.forwardRef<\n"
    ++ "  React.ElementRef<typeof TabsPrimitive.Trigger>,\n"
    ++ "  React.ComponentPropsWithoutRef<typeof TabsPrimitive.Trigger>\n"
    ++ ">((\x7b className, ...props \x7d, ref) => (\n"
    ++ "  <TabsPrimitive.Trigger\n"
    ++ "    ref=\x7bref\x7d\n"
    ++ "    className=\x7bcn(\n"
    ++ "      \"inline-flex items-center justify-center whitespace-nowrap rounded-sm px-3 py-1.5 text-sm font-medium ring-offset-background transition-all focus-visible:outline-none focus-visible:ring-2 focus-visible:ring-ring focus-visible:ring-offset-2 disabled:pointer-events-none disabled:opacity-50 data-[state=active]:bg-background data-[state=active]:text-foreground data-[state=active]:shadow-sm\",\n"
    ++ "      className\n"
    ++ "    )\x7d\n"
    ++ "    \x7b...props\x7d\n"
    ++ "  />\n"
    ++ "))\n"
    ++ name ++ "Trigger.displayName = TabsPrimitive.Trigger.displayName\n"
    ++ "\n"
    ++ "const " ++ name ++ "Content = React.forwardRef<\n"
    ++ "  React.ElementRef<typeof TabsPrimitive.Content>,\n"
    ++ "  React.ComponentPropsWithoutRef<typeof TabsPrimitive.Content>\n"
    ++ ">((\x7b className, ...props \x7d, ref) => (\n"
    ++ "  <TabsPrimitive.Content\n"
    ++ "    ref=\x7bref\x7d\n"
    ++ "    className=\x7bcn(\n"
    ++ "      \"mt-2 ring-offset-background focus-visible:outline-none focus-visible:ring-2 focus-visible:ring-ring focus-visible:ring-offset-2\",\n"
    ++ "      className\n"
    ++ "    )\x7d\n"
    ++ "    \x7b...props\x7d\n"
    ++ "  />\n"
    ++ "))\n"
    ++ name ++ "Content.displayName = TabsPrimitive.Content.displayName\n"
    ++ "\n"
    ++ "export \x7b " ++ name ++ ", " ++ name ++ "List, " ++ name ++ "Trigger, " ++ name ++ "Content \x7d"

/-- Template string for the `menu` entry of the `shadcn` scaffolder,
transliterated from src/index.ts (the TS interpolation of the component
name becomes the `name` argument). -/
def shadcn_menu (name : String) : String :=
  "import * as React from \"react\"\n"
    ++ "import * as DropdownMenuPrimitive from \"@radix-ui/react-dropdown-menu\"\n"
    ++ "import \x7b Check, ChevronRight, Circle \x7d from \"lucide-react\"\n"
    ++ "import \x7b cn \x7d from \"@/lib/utils\"\n"
    ++ "\n"
    ++ "const " ++ name ++ " = DropdownMenuPrimitive.Root\n"
    ++ "const " ++ name ++ "Trigger = DropdownMenuPrimitive.Trigger\n"
    ++ "const " ++ name ++ "Group = DropdownMenuPrimitive.Group\n"
    ++ "const " ++ name ++ "Portal = DropdownMenuPrimitive.Portal\n"
    ++ "const " ++ name ++ "Sub = DropdownMenuPrimitive.Sub\n"
    ++ "const " ++ name ++ "RadioGroup = DropdownMenuPrimitive.RadioGroup\n"
    ++ "\n"
    ++ "const " ++ name ++ "Content = React.forwardRef<\n"
    ++ "  React.ElementRef<typeof DropdownMenuPrimitive.Content>,\n"
    ++ "  React.ComponentPropsWithoutRef<typeof DropdownMenuPrimitive.Content>\n"
    ++ ">((\x7b className, sideOffset = 4, ...props \x7d, ref) => (\n"
    ++ "  <DropdownMenuPrimitive.Portal>\n"
    ++ "    <DropdownMenuPrimitive.Content\n"
    ++ "      ref=\x7bref\x7d\n"
    ++ "      sideOffset=\x7bsideOffset\x7d\n"
    ++ "      className=\x7bcn(\n"
    ++ "        \"z-50 min-w-[8rem] overflow-hidden rounded-md border bg-popover p-1 text-popover-foreground shadow-md data-[state=open]:animate-in data-[state=closed]:animate-out data-[state=closed]:fade-out-0 data-[state=open]:fade-in-0 data-[state=closed]:zoom-out-95 data-[state=open]:zoom-in-95 data-[side=bottom]:slide-in-from-top-2 data-[side=left]:slide-in-from-right-2 data-[side=right]:slide-in-from-left-2 data-[side=top]:slide-in-from-bottom-2\",\n"
    ++ "        className\n"
    ++ "      )\x7d\n"
    ++ "      \x7b...props\x7d\n"
    ++ "    />\n"
    ++ "  </DropdownMenuPrimitive.Portal>\n"
    ++ "))\n"
    ++ name ++ "Content.displayName = DropdownMenuPrimitive.Content.displayName\n"
    ++ "\n"
    ++ "const " ++ name ++ "Item = React.forwardRef<\n"
    ++ "  React.ElementRef<typeof DropdownMenuPrimitive.Item>,\n"
    ++ "  React.ComponentPropsWithoutRef<typeof DropdownMenuPrimitive.Item> & \x7b inset?: boolean \x7d\n"
    ++ ">((\x7b className, inset, ...props \x7d, ref) => (\n"
    ++ "  <DropdownMenuPrimitive.Item\n"
    ++ "    ref=\x7bref\x7d\n"
    ++ "    className=\x7bcn(\n"
    ++ "      \"relative flex cursor-default select-none items-center rounded-sm px-2 py-1.5 text-sm outline-none transition-colors focus:bg-accent focus:text-accent-foreground data-[disabled]:pointer-events-none data-[disabled]:opacity-50\",\n"
    ++ "      inset && \"pl-8\",\n"
    ++ "      className\n"
    ++ "    )\x7d\n"
    ++ "    \x7b...props\x7d\n"
    ++ "  />\n"
    ++ "))\n"
    ++ name ++ "Item.displayName = DropdownMenuPrimitive.Item.displayName\n"
    ++ "\n"
    ++ "const " ++ name ++ "Separator = React.forwardRef<\n"
    ++ "  React.ElementRef<typeof DropdownMenuPrimitive.Separator>,\n"
    ++ "  React.ComponentPropsWithoutRef<typeof DropdownMenuPrimitive.Separator>\n"
    ++ ">((\x7b className, ...props \x7d, ref) => (\n"
    ++ "  <DropdownMenuPrimitive.Separator ref=\x7bref\x7d className=\x7bcn(\"-mx-1 my-1 h-px bg-muted\", className)\x7d \x7b...props\x7d />\n"
    ++ "))\n"
    ++ name ++ "Separator.displayName = DropdownMenuPrimitive.Separator.displayName\n"
    ++ "\n"
    ++ "export \x7b\n"
    ++ "  " ++ name ++ ",\n"
    ++ "  " ++ name ++ "Trigger,\n"
    ++ "  " ++ name ++ "Content,\n"
    ++ "  " ++ name ++ "Item,\n"
    ++ "  " ++ name ++ "Separator,\n"
    ++ "  " ++ name ++ "Group,\n"
    ++ "  " ++ name ++ "Portal,\n"
    ++ "  " ++ name ++ "Sub,\n"
    ++ "  " ++ name ++ "RadioGroup,\n"
    ++ "\x7d"

/-- Template string for the `table` entry of the `shadcn` scaffolder,
transliterated from src/index.ts (the TS interpolation of the component
name becomes the `name` argument). -/
def shadcn_table (name : String) : String :=
  "import * as React from \"react\"\n"
    ++ "import \x7b cn \x7d from \"@/lib/utils\"\n"
    ++ "\n"
    ++ "const " ++ name ++ " = React.forwardRef<HTMLTableElement, React.HTMLAttributes<HTMLTableElement>>(\n"
    ++ "  (\x7b className, ...props \x7d, ref) => (\n"
    ++ "    <div className=\"relative w-full overflow-auto\">\n"
    ++ "      <table ref=\x7bref\x7d className=\x7bcn(\"w-full caption-bottom text-sm\", className)\x7d \x7b...props\x7d />\n"
    ++ "    </div>\n"
    ++ "  )\n"
    ++ ")\n"
    ++ name ++ ".displayName = \"" ++ name ++ "\"\n"
    ++ "\n"
    ++ "const " ++ name ++ "Header = React.forwardRef<HTMLTableSectionElement, React.HTMLAttributes<HTMLTableSectionElement>>(\n"
    ++ "  (\x7b className, ...props \x7d, ref) => (\n"
    ++ "    <thead ref=\x7bref\x7d className=\x7bcn(\"[&_tr]:border-b\", className)\x7d \x7b...props\x7d />\n"
    ++ "  )\n"
    ++ ")\n"
    ++ name ++ "Header.displayName = \"" ++ name ++ "Header\"\n"
    ++ "\n"
    ++ "const " ++ name ++ "Body = React.forwardRef<HTMLTableSectionElement, React.HTMLAttributes<HTMLTableSectionElement>>(\n"
    ++ "  (\x7b className, ...props \x7d, ref) => (\n"
    ++ "    <tbody ref=\x7bref\x7d className=\x7bcn(\"[&_tr:last-child]:border-0\", className)\x7d \x7b...props\x7d />\n"
    ++ "  )\n"
    ++ ")\n"
    ++ name ++ "Body.displayName = \"" ++ name ++ "Body\"\n"
    ++ "\n"
    ++ "const " ++ name ++ "Row = React.forwardRef<HTMLTableRowElement, React.HTMLAttributes<HTMLTableRowElement>>(\n"
    ++ "  (\x7b className, ...props \x7d, ref) => (\n"
    ++ "    <tr\n"
    ++ "      ref=\x7bref\x7d\n"
    ++ "      className=\x7bcn(\"border-b transition-colors hover:bg-muted/50 data-[state=selected]:bg-muted\", className)\x7d\n"
    ++ "      \x7b...props\x7d\n"
    ++ "    />\n"
    ++ "  )\n"
    ++ ")\n"
    ++ name ++ "Row.displayName = \"" ++ name ++ "Row\"\n"
    ++ "\n"
    ++ "const " ++ name ++ "Head = React.forwardRef<HTMLTableCellElement, React.ThHTMLAttributes<HTMLTableCellElement>>(\n"
    ++ "  (\x7b className, ...props \x7d, ref) => (\n"
    ++ "    <th\n"
    ++ "      ref=\x7bref\x7d\n"
    ++ "      className=\x7bcn(\n"
    ++ "        \"h-12 px-4 text-left align-middle font-medium text-muted-foreground [&:has([role=checkbox])]:pr-0\",\n"
    ++ "        className\n"
    ++ "      )\x7d\n"
    ++ "      \x7b...props\x7d\n"
    ++ "    />\n"
    ++ "  )\n"
    ++ ")\n"
    ++ name ++ "Head.displayName = \"" ++ name ++ "Head\"\n"
    ++ "\n"
    ++ "const " ++ name ++ "Cell = React.forwardRef<HTMLTableCellElement, React.TdHTMLAttributes<HTMLTableCellElement>>(\n"
    ++ "  (\x7b className, ...props \x7d, ref) => (\n"
    ++ "    <td ref=\x7bref\x7d className=\x7bcn(\"p-4 align-middle [&:has([role=checkbox])]:pr-0\", className)\x7d \x7b...props\x7d />\n"
    ++ "  )\n"
    ++ ")\n"
    ++ name ++ "Cell.displayName = \"" ++ name ++ "Cell\"\n"
    ++ "\n"
    ++ "export \x7b " ++ name ++ ", " ++ name ++ "Header, " ++ name ++ "Body, " ++ name ++ "Row, " ++ name ++ "Head, " ++ name ++ "Cell \x7d"

/-- Template string for the `button` entry of the `mui` scaffolder,
transliterated from src/index.ts (the TS interpolation of the component
name becomes the `name` argument). -/
def mui_button (name : String) : String :=
  "import * as React from 'react';\n"
    ++ "import Button from '@mui/material/Button';\n"
    ++ "import \x7b styled \x7d from '@mui/material/styles';\n"
    ++ "\n"
    ++ "// Styled variant example\n"
    ++ "const Styled" ++ name ++ " = styled(Button)((\x7b theme \x7d) => (\x7b\n"
    ++ "  borderRadius: theme.shape.borderRadius * 2,\n"
    ++ "  textTransform: 'none',\n"
    ++ "  fontWeight: 600,\n"
    ++ "\x7d));\n"
    ++ "\n"
    ++ "interface " ++ name ++ "Props \x7b\n"
    ++ "  children: React.ReactNode;\n"
    ++ "  variant?: 'contained' | 'outlined' | 'text';\n"
    ++ "  color?: 'primary' | 'secondary' | 'error' | 'warning' | 'info' | 'success';\n"
    ++ "  size?: 'small' | 'medium' | 'large';\n"
    ++ "  disabled?: boolean;\n"
    ++ "  loading?: boolean;\n"
    ++ "  startIcon?: React.ReactNode;\n"
    ++ "  endIcon?: React.ReactNode;\n"
    ++ "  onClick?: () => void;\n"
    ++ "\x7d\n"
    ++ "\n"
    ++ "export function " ++ name ++ "(\x7b\n"
    ++ "  children,\n"
    ++ "  variant = 'contained',\n"
    ++ "  color = 'primary',\n"
    ++ "  size = 'medium',\n"
    ++ "  disabled = false,\n"
    ++ "  loading = false,\n"
    ++ "  startIcon,\n"
    ++ "  endIcon,\n"
    ++ "  onClick,\n"
    ++ "\x7d: " ++ name ++ "Props) \x7b\n"
    ++ "  return (\n"
    ++ "    <Styled" ++ name ++ "\n"
    ++ "      variant=\x7bvariant\x7d\n"
    ++ "      color=\x7bcolor\x7d\n"
    ++ "      size=\x7bsize\x7d\n"
    ++ "      disabled=\x7bdisabled || loading\x7d\n"
    ++ "      startIcon=\x7bloading ? <CircularProgress size=\x7b20\x7d /> : startIcon\x7d\n"
    ++ "      endIcon=\x7bendIcon\x7d\n"
    ++ "      onClick=\x7bonClick\x7d\n"
    ++ "    >\n"
    ++ "      \x7bchildren\x7d\n"
    ++ "    </Styled" ++ name ++ ">\n"
    ++ "  );\n"
    ++ "\x7d"

/-- Template string for the `input` entry of the `mui` scaffolder,
transliterated from src/index.ts (the TS interpolation of the component
name becomes the `name` argument). -/
def mui_input (name : String) : String :=
  "import * as React from 'react';\n"
    ++ "import TextField from '@mui/material/TextField';\n"
    ++ "import \x7b styled \x7d from '@mui/material/styles';\n"
    ++ "\n"
    ++ "const StyledTextField = styled(TextField)((\x7b theme \x7d) => (\x7b\n"
    ++ "  '& .MuiOutlinedInput-root': \x7b\n"
    ++ "    borderRadius: theme.shape.borderRadius,\n"
    ++ "  \x7d,\n"
    ++ "\x7d));\n"
    ++ "\n"
    ++ "interface " ++ name ++ "Props \x7b\n"
    ++ "  label?: string;\n"
    ++ "  placeholder?: string;\n"
    ++ "  value?: string;\n"
    ++ "  onChange?: (value: string) => void;\n"
    ++ "  error?: boolean;\n"
    ++ "  helperText?: string;\n"
    ++ "  type?: 'text' | 'password' | 'email' | 'number';\n"
    ++ "  variant?: 'outlined' | 'filled' | 'standard';\n"
    ++ "  size?: 'small' | 'medium';\n"
    ++ "  fullWidth?: boolean;\n"
    ++ "  required?: boolean;\n"
    ++ "  disabled?: boolean;\n"
    ++ "  multiline?: boolean;\n"
    ++ "  rows?: number;\n"
    ++ "\x7d\n"
    ++ "\n"
    ++ "export function " ++ name ++ "(\x7b\n"
    ++ "  label,\n"
    ++ "  placeholder,\n"
    ++ "  value,\n"
    ++ "  onChange,\n"
    ++ "  error = false,\n"
    ++ "  helperText,\n"
    ++ "  type = 'text',\n"
    ++ "  variant = 'outlined',\n"
    ++ "  size = 'medium',\n"
    ++ "  fullWidth = true,\n"
    ++ "  required = false,\n"
    ++ "  disabled = false,\n"
    ++ "  multiline = false,\n"
    ++ "  rows,\n"
    ++ "\x7d: " ++ name ++ "Props) \x7b\n"
    ++ "  return (\n"
    ++ "    <StyledTextField\n"
    ++ "      label=\x7blabel\x7d\n"
    ++ "      placeholder=\x7bplaceholder\x7d\n"
    ++ "      value=\x7bvalue\x7d\n"
    ++ "      onChange=\x7b(e) => onChange?.(e.target.value)\x7d\n"
    ++ "      error=\x7berror\x7d\n"
    ++ "      helperText=\x7bhelperText\x7d\n"
    ++ "      type=\x7btype\x7d\n"
    ++ "      variant=\x7bvariant\x7d\n"
    ++ "      size=\x7bsize\x7d\n"
    ++ "      fullWidth=\x7bfullWidth\x7d\n"
    ++ "      required=\x7brequired\x7d\n"
    ++ "      disabled=\x7bdisabled\x7d\n"
    ++ "      multiline=\x7bmultiline\x7d\n"
    ++ "      rows=\x7brows\x7d\n"
    ++ "    />\n"
    ++ "  );\n"
    ++ "\x7d"

/-- Template string for the `select` entry of the `mui` scaffolder,
transliterated from src/index.ts (the TS interpolation of the component
name becomes the `name` argument). -/
def mui_select (name : String) : String :=
  "import * as React from 'react';\n"
    ++ "import FormControl from '@mui/material/FormControl';\n"
    ++ "import InputLabel from '@mui/material/InputLabel';\n"
    ++ "import Select, \x7b SelectChangeEvent \x7d from '@mui/material/Select';\n"
    ++ "import MenuItem from '@mui/material/MenuItem';\n"
    ++ "import FormHelperText from '@mui/material/FormHelperText';\n"
    ++ "\n"
    ++ "interface Option \x7b\n"
    ++ "  value: string;\n"
    ++ "  label: string;\n"
    ++ "  disabled?: boolean;\n"
    ++ "\x7d\n"
    ++ "\n"
    ++ "interface " ++ name ++ "Props \x7b\n"
    ++ "  label?: string;\n"
    ++ "  value?: string;\n"
    ++ "  onChange?: (value: string) => void;\n"
    ++ "  options: Option[];\n"
    ++ "  error?: boolean;\n"
    ++ "  helperText?: string;\n"
    ++ "  size?: 'small' | 'medium';\n"
    ++ "  fullWidth?: boolean;\n"
    ++ "  required?: boolean;\n"
    ++ "  disabled?: boolean;\n"
    ++ "\x7d\n"
    ++ "\n"
    ++ "export function " ++ name ++ "(\x7b\n"
    ++ "  label,\n"
    ++ "  value,\n"
    ++ "  onChange,\n"
    ++ "  options,\n"
    ++ "  error = false,\n"
    ++ "  helperText,\n"
    ++ "  size = 'medium',\n"
    ++ "  fullWidth = true,\n"
    ++ "  required = false,\n"
    ++ "  disabled = false,\n"
    ++ "\x7d: " ++ name ++ "Props) \x7b\n"
    ++ "  const handleChange = (event: SelectChangeEvent) => \x7b\n"
    ++ "    onChange?.(event.target.value);\n"
    ++ "  \x7d;\n"
    ++ "\n"
    ++ "  return (\n"
    ++ "    <FormControl fullWidth=\x7bfullWidth\x7d size=\x7bsize\x7d error=\x7berror\x7d required=\x7brequired\x7d disabled=\x7bdisabled\x7d>\n"
    ++ "      \x7blabel && <InputLabel>\x7blabel\x7d</InputLabel>\x7d\n"
    ++ "      <Select value=\x7bvalue\x7d label=\x7blabel\x7d onChange=\x7bhandleChange\x7d>\n"
    ++ "        \x7boptions.map((option) => (\n"
    ++ "          <MenuItem key=\x7boption.value\x7d value=\x7boption.value\x7d disabled=\x7boption.disabled\x7d>\n"
    ++ "            \x7boption.label\x7d\n"
    ++ "          </MenuItem>\n"
    ++ "        ))\x7d\n"
    ++ "      </Select>\n"
    ++ "      \x7bhelperText && <FormHelperText>\x7bhelperText\x7d</FormHelperText>\x7d\n"
    ++ "    </FormControl>\n"
    ++ "  );\n"
    ++ "\x7d"

/-- Template string for the `modal` entry of the `mui` scaffolder,
transliterated from src/index.ts (the TS interpolation of the component
name becomes the `name` argument). -/
def mui_modal (name : String) : String :=
  "import * as React from 'react';\n"
    ++ "import Dialog from '@mui/material/Dialog';\n"
    ++ "import DialogTitle from '@mui/material/DialogTitle';\n"
    ++ "import DialogContent from '@mui/material/DialogContent';\n"
    ++ "import DialogActions from '@mui/material/DialogActions';\n"
    ++ "import IconButton from '@mui/material/IconButton';\n"
    ++ "import CloseIcon from '@mui/icons-material/Close';\n"
    ++ "import \x7b styled \x7d from '@mui/material/styles';\n"
    ++ "\n"
    ++ "const Styled" ++ name ++ " = styled(Dialog)((\x7b theme \x7d) => (\x7b\n"
    ++ "  '& .MuiDialogContent-root': \x7b\n"
    ++ "    padding: theme.spacing(2),\n"
    ++ "  \x7d,\n"
    ++ "  '& .MuiDialogActions-root': \x7b\n"
    ++ "    padding: theme.spacing(1),\n"
    ++ "  \x7d,\n"
    ++ "\x7d));\n"
    ++ "\n"
    ++ "interface " ++ name ++ "Props \x7b\n"
    ++ "  open: boolean;\n"
    ++ "  onClose: () => void;\n"
    ++ "  title?: string;\n"
    ++ "  children: React.ReactNode;\n"
    ++ "  actions?: React.ReactNode;\n"
    ++ "  maxWidth?: 'xs' | 'sm' | 'md' | 'lg' | 'xl' | false;\n"
    ++ "  fullWidth?: boolean;\n"
    ++ "\x7d\n"
    ++ "\n"
    ++ "export function " ++ name ++ "(\x7b\n"
    ++ "  open,\n"
    ++ "  onClose,\n"
    ++ "  title,\n"
    ++ "  children,\n"
    ++ "  actions,\n"
    ++ "  maxWidth = 'sm',\n"
    ++ "  fullWidth = true,\n"
    ++ "\x7d: " ++ name ++ "Props) \x7b\n"
    ++ "  return (\n"
    ++ "    <Styled" ++ name ++ "\n"
    ++ "      open=\x7bopen\x7d\n"
    ++ "      onClose=\x7bonClose\x7d\n"
    ++ "      maxWidth=\x7bmaxWidth\x7d\n"
    ++ "      fullWidth=\x7bfullWidth\x7d\n"
    ++ "    >\n"
    ++ "      \x7btitle && (\n"
    ++ "        <DialogTitle sx=\x7b\x7b m: 0, p: 2 \x7d\x7d>\n"
    ++ "          \x7btitle\x7d\n"
    ++ "          <IconButton\n"
    ++ "            aria-label=\"close\"\n"
    ++ "            onClick=\x7bonClose\x7d\n"
    ++ "            sx=\x7b\x7b\n"
    ++ "              position: 'absolute',\n"
    ++ "              right: 8,\n"
    ++ "              top: 8,\n"
    ++ "              color: (theme) => theme.palette.grey[500],\n"
    ++ "            \x7d\x7d\n"
    ++ "          >\n"
    ++ "            <CloseIcon />\n"
    ++ "          </IconButton>\n"
    ++ "        </DialogTitle>\n"
    ++ "      )\x7d\n"
    ++ "      <DialogContent dividers>\x7bchildren\x7d</DialogContent>\n"
    ++ "      \x7bactions && <DialogActions>\x7bactions\x7d</DialogActions>\x7d\n"
    ++ "    </Styled" ++ name ++ ">\n"
    ++ "  );\n"
    ++ "\x7d"

/-- Template string for the `card` entry of the `mui` scaffolder,
transliterated from src/index.ts (the TS interpolation of the component
name becomes the `name` argument). -/
def mui_card (name : String) : String :=
  "import * as React from 'react';\n"
    ++ "import Card from '@mui/material/Card';\n"
    ++ "import CardHeader from '@mui/material/CardHeader';\n"
    ++ "import CardContent from '@mui/material/CardContent';\n"
    ++ "import CardActions from '@mui/material/CardActions';\n"
    ++ "import CardMedia from '@mui/material/CardMedia';\n"
    ++ "import \x7b styled \x7d from '@mui/material/styles';\n"
    ++ "\n"
    ++ "const Styled" ++ name ++ " = styled(Card)((\x7b theme \x7d) => (\x7b\n"
    ++ "  borderRadius: theme.shape.borderRadius * 2,\n"
    ++ "\x7d));\n"
    ++ "\n"
    ++ "interface " ++ name ++ "Props \x7b\n"
    ++ "  title?: string;\n"
    ++ "  subheader?: string;\n"
    ++ "  children: React.ReactNode;\n"
    ++ "  actions?: React.ReactNode;\n"
    ++ "  image?: string;\n"
    ++ "  imageAlt?: string;\n"
    ++ "  imageHeight?: number;\n"
    ++ "  elevation?: number;\n"
    ++ "  variant?: 'elevation' | 'outlined';\n"
    ++ "\x7d\n"
    ++ "\n"
    ++ "export function " ++ name ++ "(\x7b\n"
    ++ "  title,\n"
    ++ "  subheader,\n"
    ++ "  children,\n"
    ++ "  actions,\n"
    ++ "  image,\n"
    ++ "  imageAlt,\n"
    ++ "  imageHeight = 140,\n"
    ++ "  elevation = 1,\n"
    ++ "  variant = 'elevation',\n"
    ++ "\x7d: " ++ name ++ "Props) \x7b\n"
    ++ "  return (\n"
    ++ "    <Styled" ++ name ++ " elevation=\x7belevation\x7d variant=\x7bvariant\x7d>\n"
    ++ "      \x7bimage && (\n"
    ++ "        <CardMedia\n"
    ++ "          component=\"img\"\n"
    ++ "          height=\x7bimageHeight\x7d\n"
    ++ "          image=\x7bimage\x7d\n"
    ++ "          alt=\x7bimageAlt || title || 'Card image'\x7d\n"
    ++ "        />\n"
    ++ "      )\x7d\n"
    ++ "      \x7b(title || subheader) && <CardHeader title=\x7btitle\x7d subheader=\x7bsubheader\x7d />\x7d\n"
    ++ "      <CardContent>\x7bchildren\x7d</CardContent>\n"
    ++ "      \x7bactions && <CardActions>\x7bactions\x7d</CardActions>\x7d\n"
    ++ "    </Styled" ++ name ++ ">\n"
    ++ "  );\n"
    ++ "\x7d"

/-- Template string for the `alert` entry of the `mui` scaffolder,
transliterated from src/index.ts (the TS interpolation of the component
name becomes the `name` argument). -/
def mui_alert (name : String) : String :=
  "import * as React from 'react';\n"
    ++ "import Alert from '@mui/material/Alert';\n"
    ++ "import AlertTitle from '@mui/material/AlertTitle';\n"
    ++ "import Collapse from '@mui/material/Collapse';\n"
    ++ "import IconButton from '@mui/material/IconButton';\n"
    ++ "import CloseIcon from '@mui/icons-material/Close';\n"
    ++ "\n"
    ++ "interface " ++ name ++ "Props \x7b\n"
    ++ "  severity?: 'error' | 'warning' | 'info' | 'success';\n"
    ++ "  variant?: 'standard' | 'filled' | 'outlined';\n"
    ++ "  title?: string;\n"
    ++ "  children: React.ReactNode;\n"
    ++ "  onClose?: () => void;\n"
    ++ "  icon?: React.ReactNode;\n"
    ++ "  action?: React.ReactNode;\n"
    ++ "\x7d\n"
    ++ "\n"
    ++ "export function " ++ name ++ "(\x7b\n"
    ++ "  severity = 'info',\n"
    ++ "  variant = 'standard',\n"
    ++ "  title,\n"
    ++ "  children,\n"
    ++ "  onClose,\n"
    ++ "  icon,\n"
    ++ "  action,\n"
    ++ "\x7d: " ++ name ++ "Props) \x7b\n"
    ++ "  const [open, setOpen] = React.useState(true);\n"
    ++ "\n"
    ++ "  const handleClose = () => \x7b\n"
    ++ "    setOpen(false);\n"
    ++ "    onClose?.();\n"
    ++ "  \x7d;\n"
    ++ "\n"
    ++ "  return (\n"
    ++ "    <Collapse in=\x7bopen\x7d>\n"
    ++ "      <Alert\n"
    ++ "        severity=\x7bseverity\x7d\n"
    ++ "        variant=\x7bvariant\x7d\n"
    ++ "        icon=\x7bicon\x7d\n"
    ++ "        action=\x7b\n"
    ++ "          action || (onClose && (\n"
    ++ "            <IconButton\n"
    ++ "              aria-label=\"close\"\n"
    ++ "              color=\"inherit\"\n"
    ++ "              size=\"small\"\n"
    ++ "              onClick=\x7bhandleClose\x7d\n"
    ++ "            >\n"
    ++ "              <CloseIcon fontSize=\"inherit\" />\n"
    ++ "            </IconButton>\n"
    ++ "          ))\n"
    ++ "        \x7d\n"
    ++ "      >\n"
    ++ "        \x7btitle && <AlertTitle>\x7btitle\x7d</AlertTitle>\x7d\n"
    ++ "        \x7bchildren\x7d\n"
    ++ "      </Alert>\n"
    ++ "    </Collapse>\n"
    ++ "  );\n"
    ++ "\x7d"

/-- Template string for the `tabs` entry of the `mui` scaffolder,
transliterated from src/index.ts (the TS interpolation of the component
name becomes the `name` argument). -/
def mui_tabs (name : String) : String :=
  "import * as React from 'react';\n"
    ++ "import Tabs from '@mui/material/Tabs';\n"
    ++ "import Tab from '@mui/material/Tab';\n"
    ++ "import Box from '@mui/material/Box';\n"
    ++ "import \x7b styled \x7d from '@mui/material/styles';\n"
    ++ "\n"
    ++ "interface TabPanelProps \x7b\n"
    ++ "  children?: React.ReactNode;\n"
    ++ "  index: number;\n"
    ++ "  value: number;\n"
    ++ "\x7d\n"
    ++ "\n"
    ++ "function TabPanel(\x7b children, value, index, ...other \x7d: TabPanelProps) \x7b\n"
    ++ "  return (\n"
    ++ "    <div\n"
    ++ "      role=\"tabpanel\"\n"
    ++ "      hidden=\x7bvalue !== index\x7d\n"
    ++ "      id=\x7b`tabpanel-$\x7bindex\x7d`\x7d\n"
    ++ "      aria-labelledby=\x7b`tab-$\x7bindex\x7d`\x7d\n"
    ++ "      \x7b...other\x7d\n"
    ++ "    >\n"
    ++ "      \x7bvalue === index && <Box sx=\x7b\x7b p: 3 \x7d\x7d>\x7bchildren\x7d</Box>\x7d\n"
    ++ "    </div>\n"
    ++ "  );\n"
    ++ "\x7d\n"
    ++ "\n"
    ++ "interface TabItem \x7b\n"
    ++ "  label: string;\n"
    ++ "  content: React.ReactNode;\n"
    ++ "  disabled?: boolean;\n"
    ++ "  icon?: React.ReactElement;\n"
    ++ "\x7d\n"
    ++ "\n"
    ++ "interface " ++ name ++ "Props \x7b\n"
    ++ "  tabs: TabItem[];\n"
    ++ "  defaultValue?: number;\n"
    ++ "  onChange?: (index: number) => void;\n"
    ++ "  variant?: 'standard' | 'scrollable' | 'fullWidth';\n"
    ++ "  centered?: boolean;\n"
    ++ "\x7d\n"
    ++ "\n"
    ++ "export function " ++ name ++ "(\x7b\n"
    ++ "  tabs,\n"
    ++ "  defaultValue = 0,\n"
    ++ "  onChange,\n"
    ++ "  variant = 'standard',\n"
    ++ "  centered = false,\n"
    ++ "\x7d: " ++ name ++ "Props) \x7b\n"
    ++ "  const [value, setValue] = React.useState(defaultValue);\n"
    ++ "\n"
    ++ "  const handleChange = (event: React.SyntheticEvent, newValue: number) => \x7b\n"
    ++ "    setValue(newValue);\n"
    ++ "    onChange?.(newValue);\n"
    ++ "  \x7d;\n"
    ++ "\n"
    ++ "  return (\n"
    ++ "    <Box sx=\x7b\x7b width: '100%' \x7d\x7d>\n"
    ++ "      <Box sx=\x7b\x7b borderBottom: 1, borderColor: 'divider' \x7d\x7d>\n"
    ++ "        <Tabs value=\x7bvalue\x7d onChange=\x7bhandleChange\x7d variant=\x7bvariant\x7d centered=\x7bcentered\x7d>\n"
    ++ "          \x7btabs.map((tab, index) => (\n"
    ++ "            <Tab\n"
    ++ "              key=\x7bindex\x7d\n"
    ++ "              label=\x7btab.label\x7d\n"
    ++ "              disabled=\x7btab.disabled\x7d\n"
    ++ "              icon=\x7btab.icon\x7d\n"
    ++ "              id=\x7b`tab-$\x7bindex\x7d`\x7d\n"
    ++ "              aria-controls=\x7b`tabpanel-$\x7bindex\x7d`\x7d\n"
    ++ "            />\n"
    ++ "          ))\x7d\n"
    ++ "        </Tabs>\n"
    ++ "      </Box>\n"
    ++ "      \x7btabs.map((tab, index) => (\n"
    ++ "        <TabPanel key=\x7bindex\x7d value=\x7bvalue\x7d index=\x7bindex\x7d>\n"
    ++ "          \x7btab.content\x7d\n"
    ++ "        </TabPanel>\n"
    ++ "      ))\x7d\n"
    ++ "    </Box>\n"
    ++ "  );\n"
    ++ "\x7d"

/-- Template string for the `menu` entry of the `mui` scaffolder,
transliterated from src/index.ts (the TS interpolation of the component
name becomes the `name` argument). -/
def mui_menu (name : String) : String :=
  "import * as React from 'react';\n"
    ++ "import Menu from '@mui/material/Menu';\n"
    ++ "import MenuItem from '@mui/material/MenuItem';\n"
    ++ "import ListItemIcon from '@mui/material/ListItemIcon';\n"
    ++ "import ListItemText from '@mui/material/ListItemText';\n"
    ++ "import Divider from '@mui/material/Divider';\n"
    ++ "\n"
    ++ "interface MenuItemData \x7b\n"
    ++ "  label: string;\n"
    ++ "  onClick?: () => void;\n"
    ++ "  icon?: React.ReactNode;\n"
    ++ "  disabled?: boolean;\n"
    ++ "  divider?: boolean;\n"
    ++ "\x7d\n"
    ++ "\n"
    ++ "interface " ++ name ++ "Props \x7b\n"
    ++ "  anchorEl: HTMLElement | null;\n"
    ++ "  open: boolean;\n"
    ++ "  onClose: () => void;\n"
    ++ "  items: MenuItemData[];\n"
    ++ "  anchorOrigin?: \x7b\n"
    ++ "    vertical: 'top' | 'center' | 'bottom';\n"
    ++ "    horizontal: 'left' | 'center' | 'right';\n"
    ++ "  \x7d;\n"
    ++ "  transformOrigin?: \x7b\n"
    ++ "    vertical: 'top' | 'center' | 'bottom';\n"
    ++ "    horizontal: 'left' | 'center' | 'right';\n"
    ++ "  \x7d;\n"
    ++ "\x7d\n"
    ++ "\n"
    ++ "export function " ++ name ++ "(\x7b\n"
    ++ "  anchorEl,\n"
    ++ "  open,\n"
    ++ "  onClose,\n"
    ++ "  items,\n"
    ++ "  anchorOrigin = \x7b vertical: 'bottom', horizontal: 'right' \x7d,\n"
    ++ "  transformOrigin = \x7b vertical: 'top', horizontal: 'right' \x7d,\n"
    ++ "\x7d: " ++ name ++ "Props) \x7b\n"
    ++ "  return (\n"
    ++ "    <Menu\n"
    ++ "      anchorEl=\x7banchorEl\x7d\n"
    ++ "      open=\x7bopen\x7d\n"
    ++ "      onClose=\x7bonClose\x7d\n"
    ++ "      anchorOrigin=\x7banchorOrigin\x7d\n"
    ++ "      transformOrigin=\x7btransformOrigin\x7d\n"
    ++ "    >\n"
    ++ "      \x7bitems.map((item, index) =>\n"
    ++ "        item.divider ? (\n"
    ++ "          <Divider key=\x7bindex\x7d />\n"
    ++ "        ) : (\n"
    ++ "          <MenuItem key=\x7bindex\x7d onClick=\x7bitem.onClick\x7d disabled=\x7bitem.disabled\x7d>\n"
    ++ "            \x7bitem.icon && <ListItemIcon>\x7bitem.icon\x7d</ListItemIcon>\x7d\n"
    ++ "            <ListItemText>\x7bitem.label\x7d</ListItemText>\n"
    ++ "          </MenuItem>\n"
    ++ "        )\n"
    ++ "      )\x7d\n"
    ++ "    </Menu>\n"
    ++ "  );\n"
    ++ "\x7d"

/-- Template string for the `table` entry of the `mui` scaffolder,
transliterated from src/index.ts (the TS interpolation of the component
name becomes the `name` argument). -/
def mui_table (name : String) : String :=
  "import * as React from 'react';\n"
    ++ "import Table from '@mui/material/Table';\n"
    ++ "import TableBody from '@mui/material/TableBody';\n"
    ++ "import TableCell from '@mui/material/TableCell';\n"
    ++ "import TableContainer from '@mui/material/TableContainer';\n"
    ++ "import TableHead from '@mui/material/TableHead';\n"
    ++ "import TableRow from '@mui/material/TableRow';\n"
    ++ "import TablePagination from '@mui/material/TablePagination';\n"
    ++ "import TableSortLabel from '@mui/material/TableSortLabel';\n"
    ++ "import Paper from '@mui/material/Paper';\n"
    ++ "import Checkbox from '@mui/material/Checkbox';\n"
    ++ "\n"
    ++ "interface Column<T> \x7b\n"
    ++ "  id: keyof T;\n"
    ++ "  label: string;\n"
    ++ "  minWidth?: number;\n"
    ++ "  align?: 'left' | 'right' | 'center';\n"
    ++ "  format?: (value: any) => string;\n"
    ++ "  sortable?: boolean;\n"
    ++ "\x7d\n"
    ++ "\n"
    ++ "interface " ++ name ++ "Props<T extends \x7b id: string | number \x7d> \x7b\n"
    ++ "  columns: Column<T>[];\n"
    ++ "  rows: T[];\n"
    ++ "  selectable?: boolean;\n"
    ++ "  onSelectionChange?: (selected: (string | number)[]) => void;\n"
    ++ "  pagination?: boolean;\n"
    ++ "  rowsPerPageOptions?: number[];\n"
    ++ "  stickyHeader?: boolean;\n"
    ++ "  maxHeight?: number;\n"
    ++ "\x7d\n"
    ++ "\n"
    ++ "export function " ++ name ++ "<T extends \x7b id: string | number \x7d>(\x7b\n"
    ++ "  columns,\n"
    ++ "  rows,\n"
    ++ "  selectable = false,\n"
    ++ "  onSelectionChange,\n"
    ++ "  pagination = true,\n"
    ++ "  rowsPerPageOptions = [5, 10, 25],\n"
    ++ "  stickyHeader = false,\n"
    ++ "  maxHeight,\n"
    ++ "\x7d: " ++ name ++ "Props<T>) \x7b\n"
    ++ "  const [page, setPage] = React.useState(0);\n"
    ++ "  const [rowsPerPage, setRowsPerPage] = React.useState(rowsPerPageOptions[0]);\n"
    ++ "  const [selected, setSelected] = React.useState<(string | number)[]>([]);\n"
    ++ "  const [orderBy, setOrderBy] = React.useState<keyof T | null>(null);\n"
    ++ "  const [order, setOrder] = React.useState<'asc' | 'desc'>('asc');\n"
    ++ "\n"
    ++ "  const handleSelectAll = (event: React.ChangeEvent<HTMLInputElement>) => \x7b\n"
    ++ "    if (event.target.checked) \x7b\n"
    ++ "      const newSelected = rows.map((row) => row.id);\n"
    ++ "      setSelected(newSelected);\n"
    ++ "      onSelectionChange?.(newSelected);\n"
    ++ "    \x7d else \x7b\n"
    ++ "      setSelected([]);\n"
    ++ "      onSelectionChange?.([]);\n"
    ++ "    \x7d\n"
    ++ "  \x7d;\n"
    ++ "\n"
    ++ "  const handleSelect = (id: string | number) => \x7b\n"
    ++ "    const newSelected = selected.includes(id)\n"
    ++ "      ? selected.filter((s) => s !== id)\n"
    ++ "      : [...selected, id];\n"
    ++ "    setSelected(newSelected);\n"
    ++ "    onSelectionChange?.(newSelected);\n"
    ++ "  \x7d;\n"
    ++ "\n"
    ++ "  const handleSort = (column: keyof T) => \x7b\n"
    ++ "    const isAsc = orderBy === column && order === 'asc';\n"
    ++ "    setOrder(isAsc ? 'desc' : 'asc');\n"
    ++ "    setOrderBy(column);\n"
    ++ "  \x7d;\n"
    ++ "\n"
    ++ "  const sortedRows = React.useMemo(() => \x7b\n"
    ++ "    if (!orderBy) return rows;\n"
    ++ "    return [...rows].sort((a, b) => \x7b\n"
    ++ "      const aVal = a[orderBy];\n"
    ++ "      const bVal = b[orderBy];\n"
    ++ "      if (aVal < bVal) return order === 'asc' ? -1 : 1;\n"
    ++ "      if (aVal > bVal) return order === 'asc' ? 1 : -1;\n"
    ++ "      return 0;\n"
    ++ "    \x7d);\n"
    ++ "  \x7d, [rows, orderBy, order]);\n"
    ++ "\n"
    ++ "  const displayedRows = pagination\n"
    ++ "    ? sortedRows.slice(page * rowsPerPage, page * rowsPerPage + rowsPerPage)\n"
    ++ "    : sortedRows;\n"
    ++ "\n"
    ++ "  return (\n"
    ++ "    <Paper>\n"
    ++ "      <TableContainer sx=\x7b\x7b maxHeight \x7d\x7d>\n"
    ++ "        <Table stickyHeader=\x7bstickyHeader\x7d>\n"
    ++ "          <TableHead>\n"
    ++ "            <TableRow>\n"
    ++ "              \x7bselectable && (\n"
    ++ "                <TableCell padding=\"checkbox\">\n"
    ++ "                  <Checkbox\n"
    ++ "                    indeterminate=\x7bselected.length > 0 && selected.length < rows.length\x7d\n"
    ++ "                    checked=\x7brows.length > 0 && selected.length === rows.length\x7d\n"
    ++ "                    onChange=\x7bhandleSelectAll\x7d\n"
    ++ "                  />\n"
    ++ "                </TableCell>\n"
    ++ "              )\x7d\n"
    ++ "              \x7bcolumns.map((column) => (\n"
    ++ "                <TableCell\n"
    ++ "                  key=\x7bString(column.id)\x7d\n"
    ++ "                  align=\x7bcolumn.align\x7d\n"
    ++ "                  style=\x7b\x7b minWidth: column.minWidth \x7d\x7d\n"
    ++ "                >\n"
    ++ "                  \x7bcolumn.sortable ? (\n"
    ++ "                    <TableSortLabel\n"
    ++ "                      active=\x7borderBy === column.id\x7d\n"
    ++ "                      direction=\x7borderBy === column.id ? order : 'asc'\x7d\n"
    ++ "                      onClick=\x7b() => handleSort(column.id)\x7d\n"
    ++ "                    >\n"
    ++ "                      \x7bcolumn.label\x7d\n"
    ++ "                    </TableSortLabel>\n"
    ++ "                  ) : (\n"
    ++ "                    column.label\n"
    ++ "                  )\x7d\n"
    ++ "                </TableCell>\n"
    ++ "              ))\x7d\n"
    ++ "            </TableRow>\n"
    ++ "          </TableHead>\n"
    ++ "          <TableBody>\n"
    ++ "            \x7bdisplayedRows.map((row) => (\n"
    ++ "              <TableRow\n"
    ++ "                hover\n"
    ++ "                key=\x7brow.id\x7d\n"
    ++ "                selected=\x7bselected.includes(row.id)\x7d\n"
    ++ "                onClick=\x7b() => selectable && handleSelect(row.id)\x7d\n"
    ++ "              >\n"
    ++ "                \x7bselectable && (\n"
    ++ "                  <TableCell padding=\"checkbox\">\n"
    ++ "                    <Checkbox checked=\x7bselected.includes(row.id)\x7d />\n"
    ++ "                  </TableCell>\n"
    ++ "                )\x7d\n"
    ++ "                \x7bcolumns.map((column) => \x7b\n"
    ++ "                  const value = row[column.id];\n"
    ++ "                  return (\n"
    ++ "                    <TableCell key=\x7bString(column.id)\x7d align=\x7bcolumn.align\x7d>\n"
    ++ "                      \x7bcolumn.format ? column.format(value) : String(value)\x7d\n"
    ++ "                    </TableCell>\n"
    ++ "                  );\n"
    ++ "                \x7d)\x7d\n"
    ++ "              </TableRow>\n"
    ++ "            ))\x7d\n"
    ++ "          </TableBody>\n"
    ++ "        </Table>\n"
    ++ "      </TableContainer>\n"
    ++ "      \x7bpagination && (\n"
    ++ "        <TablePagination\n"
    ++ "          rowsPerPageOptions=\x7browsPerPageOptions\x7d\n"
    ++ "          component=\"div\"\n"
    ++ "          count=\x7brows.length\x7d\n"
    ++ "          rowsPerPage=\x7browsPerPage\x7d\n"
    ++ "          page=\x7bpage\x7d\n"
    ++ "          onPageChange=\x7b(_, newPage) => setPage(newPage)\x7d\n"
    ++ "          onRowsPerPageChange=\x7b(e) => \x7b\n"
    ++ "            setRowsPerPage(parseInt(e.target.value, 10));\n"
    ++ "            setPage(0);\n"
    ++ "          \x7d\x7d\n"
    ++ "        />\n"
    ++ "      )\x7d\n"
    ++ "    </Paper>\n"
    ++ "  );\n"
    ++ "\x7d"

/-- Template string for the `button` entry of the `chakra` scaffolder,
transliterated from src/index.ts (the TS interpolation of the component
name becomes the `name` argument). -/
def chakra_button (name : String) : String :=
  "import \x7b Button as ChakraButton, ButtonProps, Spinner \x7d from '@chakra-ui/react';\n"
    ++ "\n"
    ++ "interface " ++ name ++ "Props extends ButtonProps \x7b\n"
    ++ "  loading?: boolean;\n"
    ++ "\x7d\n"
    ++ "\n"
    ++ "export function " ++ name ++ "(\x7b loading, children, disabled, ...props \x7d: " ++ name ++ "Props) \x7b\n"
    ++ "  return (\n"
    ++ "    <ChakraButton\n"
    ++ "      isDisabled=\x7bdisabled || loading\x7d\n"
    ++ "      \x7b...props\x7d\n"
    ++ "    >\n"
    ++ "      \x7bloading && <Spinner size=\"sm\" mr=\x7b2\x7d />\x7d\n"
    ++ "      \x7bchildren\x7d\n"
    ++ "    </ChakraButton>\n"
    ++ "  );\n"
    ++ "\x7d\n"
    ++ "\n"
    ++ "// Usage with variants:\n"
    ++ "// <" ++ name ++ " colorScheme=\"blue\" variant=\"solid\">Primary</" ++ name ++ ">\n"
    ++ "// <" ++ name ++ " colorScheme=\"gray\" variant=\"outline\">Secondary</" ++ name ++ ">\n"
    ++ "// <" ++ name ++ " colorScheme=\"red\" variant=\"ghost\">Danger</" ++ name ++ ">\n"
    ++ "// <" ++ name ++ " size=\"sm\" | \"md\" | \"lg\">Sizes</" ++ name ++ ">"

/-- Template string for the `input` entry of the `chakra` scaffolder,
transliterated from src/index.ts (the TS interpolation of the component
name becomes the `name` argument). -/
def chakra_input (name : String) : String :=
  "import \x7b\n"
    ++ "  FormControl,\n"
    ++ "  FormLabel,\n"
    ++ "  FormErrorMessage,\n"
    ++ "  FormHelperText,\n"
    ++ "  Input as ChakraInput,\n"
    ++ "  InputGroup,\n"
    ++ "  InputLeftElement,\n"
    ++ "  InputRightElement,\n"
    ++ "  InputProps,\n"
    ++ "\x7d from '@chakra-ui/react';\n"
    ++ "\n"
    ++ "interface " ++ name ++ "Props extends InputProps \x7b\n"
    ++ "  label?: string;\n"
    ++ "  error?: string;\n"
    ++ "  helperText?: string;\n"
    ++ "  leftElement?: React.ReactNode;\n"
    ++ "  rightElement?: React.ReactNode;\n"
    ++ "\x7d\n"
    ++ "\n"
    ++ "export function " ++ name ++ "(\x7b\n"
    ++ "  label,\n"
    ++ "  error,\n"
    ++ "  helperText,\n"
    ++ "  leftElement,\n"
    ++ "  rightElement,\n"
    ++ "  isRequired,\n"
    ++ "  ...props\n"
    ++ "\x7d: " ++ name ++ "Props) \x7b\n"
    ++ "  return (\n"
    ++ "    <FormControl isInvalid=\x7b!!error\x7d isRequired=\x7bisRequired\x7d>\n"
    ++ "      \x7blabel && <FormLabel>\x7blabel\x7d</FormLabel>\x7d\n"
    ++ "      <InputGroup>\n"
    ++ "        \x7bleftElement && <InputLeftElement>\x7bleftElement\x7d</InputLeftElement>\x7d\n"
    ++ "        <ChakraInput \x7b...props\x7d />\n"
    ++ "        \x7brightElement && <InputRightElement>\x7brightElement\x7d</InputRightElement>\x7d\n"
    ++ "      </InputGroup>\n"
    ++ "      \x7berror ? (\n"
    ++ "        <FormErrorMessage>\x7berror\x7d</FormErrorMessage>\n"
    ++ "      ) : helperText ? (\n"
    ++ "        <FormHelperText>\x7bhelperText\x7d</FormHelperText>\n"
    ++ "      ) : null\x7d\n"
    ++ "    </FormControl>\n"
    ++ "  );\n"
    ++ "\x7d"

/-- Template string for the `select` entry of the `chakra` scaffolder,
transliterated from src/index.ts (the TS interpolation of the component
name becomes the `name` argument). -/
def chakra_select (name : String) : String :=
  "import \x7b\n"
    ++ "  FormControl,\n"
    ++ "  FormLabel,\n"
    ++ "  FormErrorMessage,\n"
    ++ "  Select as ChakraSelect,\n"
    ++ "  SelectProps,\n"
    ++ "\x7d from '@chakra-ui/react';\n"
    ++ "\n"
    ++ "interface Option \x7b\n"
    ++ "  value: string;\n"
    ++ "  label: string;\n"
    ++ "  disabled?: boolean;\n"
    ++ "\x7d\n"
    ++ "\n"
    ++ "interface " ++ name ++ "Props extends Omit<SelectProps, 'children'> \x7b\n"
    ++ "  label?: string;\n"
    ++ "  error?: string;\n"
    ++ "  options: Option[];\n"
    ++ "\x7d\n"
    ++ "\n"
    ++ "export function " ++ name ++ "(\x7b\n"
    ++ "  label,\n"
    ++ "  error,\n"
    ++ "  options,\n"
    ++ "  placeholder,\n"
    ++ "  isRequired,\n"
    ++ "  ...props\n"
    ++ "\x7d: " ++ name ++ "Props) \x7b\n"
    ++ "  return (\n"
    ++ "    <FormControl isInvalid=\x7b!!error\x7d isRequired=\x7bisRequired\x7d>\n"
    ++ "      \x7blabel && <FormLabel>\x7blabel\x7d</FormLabel>\x7d\n"
    ++ "      <ChakraSelect placeholder=\x7bplaceholder\x7d \x7b...props\x7d>\n"
    ++ "        \x7boptions.map((option) => (\n"
    ++ "          <option key=\x7boption.value\x7d value=\x7boption.value\x7d disabled=\x7boption.disabled\x7d>\n"
    ++ "            \x7boption.label\x7d\n"
    ++ "          </option>\n"
    ++ "        ))\x7d\n"
    ++ "      </ChakraSelect>\n"
    ++ "      \x7berror && <FormErrorMessage>\x7berror\x7d</FormErrorMessage>\x7d\n"
    ++ "    </FormControl>\n"
    ++ "  );\n"
    ++ "\x7d"

/-- Template string for the `modal` entry of the `chakra` scaffolder,
transliterated from src/index.ts (the TS interpolation of the component
name becomes the `name` argument). -/
def chakra_modal (name : String) : String :=
  "import \x7b\n"
    ++ "  Modal as ChakraModal,\n"
    ++ "  ModalOverlay,\n"
    ++ "  ModalContent,\n"
    ++ "  ModalHeader,\n"
    ++ "  ModalFooter,\n"
    ++ "  ModalBody,\n"
    ++ "  ModalCloseButton,\n"
    ++ "  ModalProps,\n"
    ++ "\x7d from '@chakra-ui/react';\n"
    ++ "\n"
    ++ "interface " ++ name ++ "Props extends Omit<ModalProps, 'children'> \x7b\n"
    ++ "  title?: string;\n"
    ++ "  children: React.ReactNode;\n"
    ++ "  footer?: React.ReactNode;\n"
    ++ "\x7d\n"
    ++ "\n"
    ++ "export function " ++ name ++ "(\x7b\n"
    ++ "  isOpen,\n"
    ++ "  onClose,\n"
    ++ "  title,\n"
    ++ "  children,\n"
    ++ "  footer,\n"
    ++ "  size = 'md',\n"
    ++ "  ...props\n"
    ++ "\x7d: " ++ name ++ "Props) \x7b\n"
    ++ "  return (\n"
    ++ "    <ChakraModal isOpen=\x7bisOpen\x7d onClose=\x7bonClose\x7d size=\x7bsize\x7d \x7b...props\x7d>\n"
    ++ "      <ModalOverlay />\n"
    ++ "      <ModalContent>\n"
    ++ "        \x7btitle && <ModalHeader>\x7btitle\x7d</ModalHeader>\x7d\n"
    ++ "        <ModalCloseButton />\n"
    ++ "        <ModalBody>\x7bchildren\x7d</ModalBody>\n"
    ++ "        \x7bfooter && <ModalFooter>\x7bfooter\x7d</ModalFooter>\x7d\n"
    ++ "      </ModalContent>\n"
    ++ "    </ChakraModal>\n"
    ++ "  );\n"
    ++ "\x7d\n"
    ++ "\n"
    ++ "// Usage:\n"
    ++ "// <" ++ name ++ " isOpen=\x7bisOpen\x7d onClose=\x7bonClose\x7d title=\"Modal Title\">\n"
    ++ "//   <p>Modal content here</p>\n"
    ++ "// </" ++ name ++ ">"

/-- Template string for the `card` entry of the `chakra` scaffolder,
transliterated from src/index.ts (the TS interpolation of the component
name becomes the `name` argument). -/
def chakra_card (name : String) : String :=
  "import \x7b\n"
    ++ "  Card as ChakraCard,\n"
    ++ "  CardHeader,\n"
    ++ "  CardBody,\n"
    ++ "  CardFooter,\n"
    ++ "  CardProps,\n"
    ++ "  Heading,\n"
    ++ "  Text,\n"
    ++ "\x7d from '@chakra-ui/react';\n"
    ++ "\n"
    ++ "interface " ++ name ++ "Props extends CardProps \x7b\n"
    ++ "  title?: string;\n"
    ++ "  subtitle?: string;\n"
    ++ "  children: React.ReactNode;\n"
    ++ "  footer?: React.ReactNode;\n"
    ++ "\x7d\n"
    ++ "\n"
    ++ "export function " ++ name ++ "(\x7b\n"
    ++ "  title,\n"
    ++ "  subtitle,\n"
    ++ "  children,\n"
    ++ "  footer,\n"
    ++ "  ...props\n"
    ++ "\x7d: " ++ name ++ "Props) \x7b\n"
    ++ "  return (\n"
    ++ "    <ChakraCard \x7b...props\x7d>\n"
    ++ "      \x7b(title || subtitle) && (\n"
    ++ "        <CardHeader>\n"
    ++ "          \x7btitle && <Heading size=\"md\">\x7btitle\x7d</Heading>\x7d\n"
    ++ "          \x7bsubtitle && <Text color=\"gray.500\">\x7bsubtitle\x7d</Text>\x7d\n"
    ++ "        </CardHeader>\n"
    ++ "      )\x7d\n"
    ++ "      <CardBody>\x7bchildren\x7d</CardBody>\n"
    ++ "      \x7bfooter && <CardFooter>\x7bfooter\x7d</CardFooter>\x7d\n"
    ++ "    </ChakraCard>\n"
    ++ "  );\n"
    ++ "\x7d\n"
    ++ "\n"
    ++ "// Usage:\n"
    ++ "// <" ++ name ++ " title=\"Card Title\" subtitle=\"Card subtitle\" variant=\"outline\">\n"
    ++ "//   <p>Card content</p>\n"
    ++ "// </" ++ name ++ ">"

/-- Template string for the `alert` entry of the `chakra` scaffolder,
transliterated from src/index.ts (the TS interpolation of the component
name becomes the `name` argument). -/
def chakra_alert (name : String) : String :=
  "import \x7b\n"
    ++ "  Alert as ChakraAlert,\n"
    ++ "  AlertIcon,\n"
    ++ "  AlertTitle,\n"
    ++ "  AlertDescription,\n"
    ++ "  CloseButton,\n"
    ++ "  Box,\n"
    ++ "\x7d from '@chakra-ui/react';\n"
    ++ "\n"
    ++ "interface " ++ name ++ "Props \x7b\n"
    ++ "  status?: 'info' | 'warning' | 'success' | 'error' | 'loading';\n"
    ++ "  variant?: 'subtle' | 'solid' | 'left-accent' | 'top-accent';\n"
    ++ "  title?: string;\n"
    ++ "  children: React.ReactNode;\n"
    ++ "  onClose?: () => void;\n"
    ++ "\x7d\n"
    ++ "\n"
    ++ "export function " ++ name ++ "(\x7b\n"
    ++ "  status = 'info',\n"
    ++ "  variant = 'subtle',\n"
    ++ "  title,\n"
    ++ "  children,\n"
    ++ "  onClose,\n"
    ++ "\x7d: " ++ name ++ "Props) \x7b\n"
    ++ "  return (\n"
    ++ "    <ChakraAlert status=\x7bstatus\x7d variant=\x7bvariant\x7d>\n"
    ++ "      <AlertIcon />\n"
    ++ "      <Box flex=\"1\">\n"
    ++ "        \x7btitle && <AlertTitle>\x7btitle\x7d</AlertTitle>\x7d\n"
    ++ "        <AlertDescription>\x7bchildren\x7d</AlertDescription>\n"
    ++ "      </Box>\n"
    ++ "      \x7bonClose && (\n"
    ++ "        <CloseButton\n"
    ++ "          alignSelf=\"flex-start\"\n"
    ++ "          position=\"relative\"\n"
    ++ "          right=\x7b-1\x7d\n"
    ++ "          top=\x7b-1\x7d\n"
    ++ "          onClick=\x7bonClose\x7d\n"
    ++ "        />\n"
    ++ "      )\x7d\n"
    ++ "    </ChakraAlert>\n"
    ++ "  );\n"
    ++ "\x7d"

/-- Template string for the `tabs` entry of the `chakra` scaffolder,
transliterated from src/index.ts (the TS interpolation of the component
name becomes the `name` argument). -/
def chakra_tabs (name : String) : String :=
  "import \x7b\n"
    ++ "  Tabs as ChakraTabs,\n"
    ++ "  TabList,\n"
    ++ "  TabPanels,\n"
    ++ "  Tab,\n"
    ++ "  TabPanel,\n"
    ++ "  TabsProps,\n"
    ++ "\x7d from '@chakra-ui/react';\n"
    ++ "\n"
    ++ "interface TabItem \x7b\n"
    ++ "  label: string;\n"
    ++ "  content: React.ReactNode;\n"
    ++ "  isDisabled?: boolean;\n"
    ++ "\x7d\n"
    ++ "\n"
    ++ "interface " ++ name ++ "Props extends Omit<TabsProps, 'children'> \x7b\n"
    ++ "  tabs: TabItem[];\n"
    ++ "  defaultIndex?: number;\n"
    ++ "  onChange?: (index: number) => void;\n"
    ++ "\x7d\n"
    ++ "\n"
    ++ "export function " ++ name ++ "(\x7b\n"
    ++ "  tabs,\n"
    ++ "  defaultIndex = 0,\n"
    ++ "  onChange,\n"
    ++ "  variant = 'line',\n"
    ++ "  colorScheme = 'blue',\n"
    ++ "  ...props\n"
    ++ "\x7d: " ++ name ++ "Props) \x7b\n"
    ++ "  return (\n"
    ++ "    <ChakraTabs\n"
    ++ "      defaultIndex=\x7bdefaultIndex\x7d\n"
    ++ "      onChange=\x7bonChange\x7d\n"
    ++ "      variant=\x7bvariant\x7d\n"
    ++ "      colorScheme=\x7bcolorScheme\x7d\n"
    ++ "      \x7b...props\x7d\n"
    ++ "    >\n"
    ++ "      <TabList>\n"
    ++ "        \x7btabs.map((tab, index) => (\n"
    ++ "          <Tab key=\x7bindex\x7d isDisabled=\x7btab.isDisabled\x7d>\n"
    ++ "            \x7btab.label\x7d\n"
    ++ "          </Tab>\n"
    ++ "        ))\x7d\n"
    ++ "      </TabList>\n"
    ++ "      <TabPanels>\n"
    ++ "        \x7btabs.map((tab, index) => (\n"
    ++ "          <TabPanel key=\x7bindex\x7d>\x7btab.content\x7d</TabPanel>\n"
    ++ "        ))\x7d\n"
    ++ "      </TabPanels>\n"
    ++ "    </ChakraTabs>\n"
    ++ "  );\n"
    ++ "\x7d"

/-- Template string for the `menu` entry of the `chakra` scaffolder,
transliterated from src/index.ts (the TS interpolation of the component
name becomes the `name` argument). -/
def chakra_menu (name : String) : String :=
  "import \x7b\n"
    ++ "  Menu as ChakraMenu,\n"
    ++ "  MenuButton,\n"
    ++ "  MenuList,\n"
    ++ "  MenuItem,\n"
    ++ "  MenuDivider,\n"
    ++ "  Button,\n"
    ++ "  IconButton,\n"
    ++ "\x7d from '@chakra-ui/react';\n"
    ++ "import \x7b ChevronDownIcon \x7d from '@chakra-ui/icons';\n"
    ++ "\n"
    ++ "interface MenuItemData \x7b\n"
    ++ "  label: string;\n"
    ++ "  onClick?: () => void;\n"
    ++ "  icon?: React.ReactElement;\n"
    ++ "  isDisabled?: boolean;\n"
    ++ "  isDivider?: boolean;\n"
    ++ "\x7d\n"
    ++ "\n"
    ++ "interface " ++ name ++ "Props \x7b\n"
    ++ "  trigger: React.ReactNode | string;\n"
    ++ "  items: MenuItemData[];\n"
    ++ "  buttonVariant?: 'solid' | 'outline' | 'ghost';\n"
    ++ "\x7d\n"
    ++ "\n"
    ++ "export function " ++ name ++ "(\x7b trigger, items, buttonVariant = 'outline' \x7d: " ++ name ++ "Props) \x7b\n"
    ++ "  return (\n"
    ++ "    <ChakraMenu>\n"
    ++ "      <MenuButton as=\x7bButton\x7d rightIcon=\x7b<ChevronDownIcon />\x7d variant=\x7bbuttonVariant\x7d>\n"
    ++ "        \x7btrigger\x7d\n"
    ++ "      </MenuButton>\n"
    ++ "      <MenuList>\n"
    ++ "        \x7bitems.map((item, index) =>\n"
    ++ "          item.isDivider ? (\n"
    ++ "            <MenuDivider key=\x7bindex\x7d />\n"
    ++ "          ) : (\n"
    ++ "            <MenuItem\n"
    ++ "              key=\x7bindex\x7d\n"
    ++ "              icon=\x7bitem.icon\x7d\n"
    ++ "              onClick=\x7bitem.onClick\x7d\n"
    ++ "              isDisabled=\x7bitem.isDisabled\x7d\n"
    ++ "            >\n"
    ++ "              \x7bitem.label\x7d\n"
    ++ "            </MenuItem>\n"
    ++ "          )\n"
    ++ "        )\x7d\n"
    ++ "      </MenuList>\n"
    ++ "    </ChakraMenu>\n"
    ++ "  );\n"
    ++ "\x7d"

/-- Template string for the `table` entry of the `chakra` scaffolder,
transliterated from src/index.ts (the TS interpolation of the component
name becomes the `name` argument). -/
def chakra_table (name : String) : String :=
  "import \x7b\n"
    ++ "  Table as ChakraTable,\n"
    ++ "  Thead,\n"
    ++ "  Tbody,\n"
    ++ "  Tr,\n"
    ++ "  Th,\n"
    ++ "  Td,\n"
    ++ "  TableContainer,\n"
    ++ "  Checkbox,\n"
    ++ "\x7d from '@chakra-ui/react';\n"
    ++ "\n"
    ++ "interface Column<T> \x7b\n"
    ++ "  key: keyof T;\n"
    ++ "  header: string;\n"
    ++ "  render?: (value: any, row: T) => React.ReactNode;\n"
    ++ "\x7d\n"
    ++ "\n"
    ++ "interface " ++ name ++ "Props<T extends \x7b id: string | number \x7d> \x7b\n"
    ++ "  columns: Column<T>[];\n"
    ++ "  data: T[];\n"
    ++ "  selectable?: boolean;\n"
    ++ "  selectedRows?: (string | number)[];\n"
    ++ "  onSelectionChange?: (selected: (string | number)[]) => void;\n"
    ++ "  variant?: 'simple' | 'striped' | 'unstyled';\n"
    ++ "  size?: 'sm' | 'md' | 'lg';\n"
    ++ "\x7d\n"
    ++ "\n"
    ++ "export function " ++ name ++ "<T extends \x7b id: string | number \x7d>(\x7b\n"
    ++ "  columns,\n"
    ++ "  data,\n"
    ++ "  selectable = false,\n"
    ++ "  selectedRows = [],\n"
    ++ "  onSelectionChange,\n"
    ++ "  variant = 'simple',\n"
    ++ "  size = 'md',\n"
    ++ "\x7d: " ++ name ++ "Props<T>) \x7b\n"
    ++ "  const allSelected = data.length > 0 && selectedRows.length === data.length;\n"
    ++ "  const someSelected = selectedRows.length > 0 && selectedRows.length < data.length;\n"
    ++ "\n"
    ++ "  const handleSelectAll = () => \x7b\n"
    ++ "    if (allSelected) \x7b\n"
    ++ "      onSelectionChange?.([]);\n"
    ++ "    \x7d else \x7b\n"
    ++ "      onSelectionChange?.(data.map((row) => row.id));\n"
    ++ "    \x7d\n"
    ++ "  \x7d;\n"
    ++ "\n"
    ++ "  const handleSelectRow = (id: string | number) => \x7b\n"
    ++ "    if (selectedRows.includes(id)) \x7b\n"
    ++ "      onSelectionChange?.(selectedRows.filter((rowId) => rowId !== id));\n"
    ++ "    \x7d else \x7b\n"
    ++ "      onSelectionChange?.([...selectedRows, id]);\n"
    ++ "    \x7d\n"
    ++ "  \x7d;\n"
    ++ "\n"
    ++ "  return (\n"
    ++ "    <TableContainer>\n"
    ++ "      <ChakraTable variant=\x7bvariant\x7d size=\x7bsize\x7d>\n"
    ++ "        <Thead>\n"
    ++ "          <Tr>\n"
    ++ "            \x7bselectable && (\n"
    ++ "              <Th w=\"40px\">\n"
    ++ "                <Checkbox\n"
    ++ "                  isChecked=\x7ballSelected\x7d\n"
    ++ "                  isIndeterminate=\x7bsomeSelected\x7d\n"
    ++ "                  onChange=\x7bhandleSelectAll\x7d\n"
    ++ "                />\n"
    ++ "              </Th>\n"
    ++ "            )\x7d\n"
    ++ "            \x7bcolumns.map((column) => (\n"
    ++ "              <Th key=\x7bString(column.key)\x7d>\x7bcolumn.header\x7d</Th>\n"
    ++ "            ))\x7d\n"
    ++ "          </Tr>\n"
    ++ "        </Thead>\n"
    ++ "        <Tbody>\n"
    ++ "          \x7bdata.map((row) => (\n"
    ++ "            <Tr key=\x7brow.id\x7d>\n"
    ++ "              \x7bselectable && (\n"
    ++ "                <Td>\n"
    ++ "                  <Checkbox\n"
    ++ "                    isChecked=\x7bselectedRows.includes(row.id)\x7d\n"
    ++ "                    onChange=\x7b() => handleSelectRow(row.id)\x7d\n"
    ++ "                  />\n"
    ++ "                </Td>\n"
    ++ "              )\x7d\n"
    ++ "              \x7bcolumns.map((column) => (\n"
    ++ "                <Td key=\x7bString(column.key)\x7d>\n"
    ++ "                  \x7bcolumn.render\n"
    ++ "                    ? column.render(row[column.key], row)\n"
    ++ "                    : String(row[column.key])\x7d\n"
    ++ "                </Td>\n"
    ++ "              ))\x7d\n"
    ++ "            </Tr>\n"
    ++ "          ))\x7d\n"
    ++ "        </Tbody>\n"
    ++ "      </ChakraTable>\n"
    ++ "    </TableContainer>\n"
    ++ "  );\n"
    ++ "\x7d"

/-- Template string for the `button` entry of the `headless` scaffolder,
transliterated from src/index.ts (the TS interpolation of the component
name becomes the `name` argument). -/
def headless_button (name : String) : String :=
  "import \x7b cn \x7d from \"@/lib/utils\";\n"
    ++ "\n"
    ++ "interface " ++ name ++ "Props extends React.ButtonHTMLAttributes<HTMLButtonElement> \x7b\n"
    ++ "  variant?: \"primary\" | \"secondary\" | \"outline\" | \"ghost\";\n"
    ++ "  size?: \"sm\" | \"md\" | \"lg\";\n"
    ++ "  loading?: boolean;\n"
    ++ "\x7d\n"
    ++ "\n"
    ++ "export function " ++ name ++ "(\x7b\n"
    ++ "  children,\n"
    ++ "  variant = \"primary\",\n"
    ++ "  size = \"md\",\n"
    ++ "  loading,\n"
    ++ "  disabled,\n"
    ++ "  className,\n"
    ++ "  ...props\n"
    ++ "\x7d: " ++ name ++ "Props) \x7b\n"
    ++ "  const baseStyles = \"inline-flex items-center justify-center font-medium transition-colors focus:outline-none focus:ring-2 focus:ring-offset-2 disabled:opacity-50 disabled:cursor-not-allowed\";\n"
    ++ "\n"
    ++ "  const variants = \x7b\n"
    ++ "    primary: \"bg-blue-600 text-white hover:bg-blue-700 focus:ring-blue-500\",\n"
    ++ "    secondary: \"bg-gray-100 text-gray-900 hover:bg-gray-200 focus:ring-gray-500\",\n"
    ++ "    outline: \"border border-gray-300 bg-transparent hover:bg-gray-50 focus:ring-gray-500\",\n"
    ++ "    ghost: \"bg-transparent hover:bg-gray-100 focus:ring-gray-500\",\n"
    ++ "  \x7d;\n"
    ++ "\n"
    ++ "  const sizes = \x7b\n"
    ++ "    sm: \"h-8 px-3 text-sm rounded\",\n"
    ++ "    md: \"h-10 px-4 text-sm rounded-md\",\n"
    ++ "    lg: \"h-12 px-6 text-base rounded-lg\",\n"
    ++ "  \x7d;\n"
    ++ "\n"
    ++ "  return (\n"
    ++ "    <button\n"
    ++ "      className=\x7bcn(baseStyles, variants[variant], sizes[size], className)\x7d\n"
    ++ "      disabled=\x7bdisabled || loading\x7d\n"
    ++ "      \x7b...props\x7d\n"
    ++ "    >\n"
    ++ "      \x7bloading && (\n"
    ++ "        <svg className=\"mr-2 h-4 w-4 animate-spin\" viewBox=\"0 0 24 24\">\n"
    ++ "          <circle className=\"opacity-25\" cx=\"12\" cy=\"12\" r=\"10\" stroke=\"currentColor\" strokeWidth=\"4\" fill=\"none\" />\n"
    ++ "          <path className=\"opacity-75\" fill=\"currentColor\" d=\"M4 12a8 8 0 018-8V0C5.373 0 0 5.373 0 12h4z\" />\n"
    ++ "        </svg>\n"
    ++ "      )\x7d\n"
    ++ "      \x7bchildren\x7d\n"
    ++ "    </button>\n"
    ++ "  );\n"
    ++ "\x7d"

/-- Template string for the `modal` entry of the `headless` scaffolder,
transliterated from src/index.ts (the TS interpolation of the component
name becomes the `name` argument). -/
def headless_modal (name : String) : String :=
  "import \x7b Dialog, Transition \x7d from \"@headlessui/react\";\n"
    ++ "import \x7b Fragment \x7d from \"react\";\n"
    ++ "import \x7b cn \x7d from \"@/lib/utils\";\n"
    ++ "\n"
    ++ "interface " ++ name ++ "Props \x7b\n"
    ++ "  isOpen: boolean;\n"
    ++ "  onClose: () => void;\n"
    ++ "  title?: string;\n"
    ++ "  description?: string;\n"
    ++ "  children: React.ReactNode;\n"
    ++ "  size?: \"sm\" | \"md\" | \"lg\" | \"xl\";\n"
    ++ "\x7d\n"
    ++ "\n"
    ++ "const sizes = \x7b\n"
    ++ "  sm: \"max-w-sm\",\n"
    ++ "  md: \"max-w-md\",\n"
    ++ "  lg: \"max-w-lg\",\n"
    ++ "  xl: \"max-w-xl\",\n"
    ++ "\x7d;\n"
    ++ "\n"
    ++ "export function " ++ name ++ "(\x7b isOpen, onClose, title, description, children, size = \"md\" \x7d: " ++ name ++ "Props) \x7b\n"
    ++ "  return (\n"
    ++ "    <Transition appear show=\x7bisOpen\x7d as=\x7bFragment\x7d>\n"
    ++ "      <Dialog as=\"div\" className=\"relative z-50\" onClose=\x7bonClose\x7d>\n"
    ++ "        <Transition.Child\n"
    ++ "          as=\x7bFragment\x7d\n"
    ++ "          enter=\"ease-out duration-300\"\n"
    ++ "          enterFrom=\"opacity-0\"\n"
    ++ "          enterTo=\"opacity-100\"\n"
    ++ "          leave=\"ease-in duration-200\"\n"
    ++ "          leaveFrom=\"opacity-100\"\n"
    ++ "          leaveTo=\"opacity-0\"\n"
    ++ "        >\n"
    ++ "          <div className=\"fixed inset-0 bg-black/25 backdrop-blur-sm\" />\n"
    ++ "        </Transition.Child>\n"
    ++ "\n"
    ++ "        <div className=\"fixed inset-0 overflow-y-auto\">\n"
    ++ "          <div className=\"flex min-h-full items-center justify-center p-4\">\n"
    ++ "            <Transition.Child\n"
    ++ "              as=\x7bFragment\x7d\n"
    ++ "              enter=\"ease-out duration-300\"\n"
    ++ "              enterFrom=\"opacity-0 scale-95\"\n"
    ++ "              enterTo=\"opacity-100 scale-100\"\n"
    ++ "              leave=\"ease-in duration-200\"\n"
    ++ "              leaveFrom=\"opacity-100 scale-100\"\n"
    ++ "              leaveTo=\"opacity-0 scale-95\"\n"
    ++ "            >\n"
    ++ "              <Dialog.Panel className=\x7bcn(\"w-full transform rounded-2xl bg-white p-6 shadow-xl transition-all\", sizes[size])\x7d>\n"
    ++ "                \x7btitle && (\n"
    ++ "                  <Dialog.Title as=\"h3\" className=\"text-lg font-semibold text-gray-900\">\n"
    ++ "                    \x7btitle\x7d\n"
    ++ "                  </Dialog.Title>\n"
    ++ "                )\x7d\n"
    ++ "                \x7bdescription && (\n"
    ++ "                  <Dialog.Description className=\"mt-2 text-sm text-gray-500\">\n"
    ++ "                    \x7bdescription\x7d\n"
    ++ "                  </Dialog.Description>\n"
    ++ "                )\x7d\n"
    ++ "                <div className=\"mt-4\">\x7bchildren\x7d</div>\n"
    ++ "              </Dialog.Panel>\n"
    ++ "            </Transition.Child>\n"
    ++ "          </div>\n"
    ++ "        </div>\n"
    ++ "      </Dialog>\n"
    ++ "    </Transition>\n"
    ++ "  );\n"
    ++ "\x7d"

/-- Template string for the `tabs` entry of the `headless` scaffolder,
transliterated from src/index.ts (the TS interpolation of the component
name becomes the `name` argument). -/
def headless_tabs (name : String) : String :=
  "import \x7b Tab \x7d from \"@headlessui/react\";\n"
    ++ "import \x7b cn \x7d from \"@/lib/utils\";\n"
    ++ "\n"
    ++ "interface TabItem \x7b\n"
    ++ "  label: string;\n"
    ++ "  content: React.ReactNode;\n"
    ++ "\x7d\n"
    ++ "\n"
    ++ "interface " ++ name ++ "Props \x7b\n"
    ++ "  tabs: TabItem[];\n"
    ++ "  defaultIndex?: number;\n"
    ++ "  onChange?: (index: number) => void;\n"
    ++ "\x7d\n"
    ++ "\n"
    ++ "export function " ++ name ++ "(\x7b tabs, defaultIndex = 0, onChange \x7d: " ++ name ++ "Props) \x7b\n"
    ++ "  return (\n"
    ++ "    <Tab.Group defaultIndex=\x7bdefaultIndex\x7d onChange=\x7bonChange\x7d>\n"
    ++ "      <Tab.List className=\"flex space-x-1 rounded-xl bg-gray-100 p-1\">\n"
    ++ "        \x7btabs.map((tab, index) => (\n"
    ++ "          <Tab\n"
    ++ "            key=\x7bindex\x7d\n"
    ++ "            className=\x7b(\x7b selected \x7d) =>\n"
    ++ "              cn(\n"
    ++ "                \"w-full rounded-lg py-2.5 text-sm font-medium leading-5 transition-colors\",\n"
    ++ "                \"focus:outline-none focus:ring-2 focus:ring-blue-500 focus:ring-offset-2\",\n"
    ++ "                selected\n"
    ++ "                  ? \"bg-white text-blue-700 shadow\"\n"
    ++ "                  : \"text-gray-600 hover:bg-white/50 hover:text-gray-800\"\n"
    ++ "              )\n"
    ++ "            \x7d\n"
    ++ "          >\n"
    ++ "            \x7btab.label\x7d\n"
    ++ "          </Tab>\n"
    ++ "        ))\x7d\n"
    ++ "      </Tab.List>\n"
    ++ "      <Tab.Panels className=\"mt-2\">\n"
    ++ "        \x7btabs.map((tab, index) => (\n"
    ++ "          <Tab.Panel\n"
    ++ "            key=\x7bindex\x7d\n"
    ++ "            className=\"rounded-xl bg-white p-3 focus:outline-none focus:ring-2 focus:ring-blue-500 focus:ring-offset-2\"\n"
    ++ "          >\n"
    ++ "            \x7btab.content\x7d\n"
    ++ "          </Tab.Panel>\n"
    ++ "        ))\x7d\n"
    ++ "      </Tab.Panels>\n"
    ++ "    </Tab.Group>\n"
    ++ "  );\n"
    ++ "\x7d"

/-- Template string for the `menu` entry of the `headless` scaffolder,
transliterated from src/index.ts (the TS interpolation of the component
name becomes the `name` argument). -/
def headless_menu (name : String) : String :=
  "import \x7b Menu, Transition \x7d from \"@headlessui/react\";\n"
    ++ "import \x7b Fragment \x7d from \"react\";\n"
    ++ "import \x7b cn \x7d from \"@/lib/utils\";\n"
    ++ "\n"
    ++ "interface MenuItem \x7b\n"
    ++ "  label: string;\n"
    ++ "  onClick?: () => void;\n"
    ++ "  icon?: React.ReactNode;\n"
    ++ "  disabled?: boolean;\n"
    ++ "  divider?: boolean;\n"
    ++ "\x7d\n"
    ++ "\n"
    ++ "interface " ++ name ++ "Props \x7b\n"
    ++ "  trigger: React.ReactNode;\n"
    ++ "  items: MenuItem[];\n"
    ++ "  align?: \"left\" | \"right\";\n"
    ++ "\x7d\n"
    ++ "\n"
    ++ "export function " ++ name ++ "(\x7b trigger, items, align = \"right\" \x7d: " ++ name ++ "Props) \x7b\n"
    ++ "  return (\n"
    ++ "    <Menu as=\"div\" className=\"relative inline-block text-left\">\n"
    ++ "      <Menu.Button as=\x7bFragment\x7d>\x7btrigger\x7d</Menu.Button>\n"
    ++ "\n"
    ++ "      <Transition\n"
    ++ "        as=\x7bFragment\x7d\n"
    ++ "        enter=\"transition ease-out duration-100\"\n"
    ++ "        enterFrom=\"transform opacity-0 scale-95\"\n"
    ++ "        enterTo=\"transform opacity-100 scale-100\"\n"
    ++ "        leave=\"transition ease-in duration-75\"\n"
    ++ "        leaveFrom=\"transform opacity-100 scale-100\"\n"
    ++ "        leaveTo=\"transform opacity-0 scale-95\"\n"
    ++ "      >\n"
    ++ "        <Menu.Items\n"
    ++ "          className=\x7bcn(\n"
    ++ "            \"absolute z-10 mt-2 w-56 origin-top-right rounded-md bg-white shadow-lg ring-1 ring-black ring-opacity-5 focus:outline-none\",\n"
    ++ "            align === \"right\" ? \"right-0\" : \"left-0\"\n"
    ++ "          )\x7d\n"
    ++ "        >\n"
    ++ "          <div className=\"py-1\">\n"
    ++ "            \x7bitems.map((item, index) =>\n"
    ++ "              item.divider ? (\n"
    ++ "                <div key=\x7bindex\x7d className=\"my-1 h-px bg-gray-200\" />\n"
    ++ "              ) : (\n"
    ++ "                <Menu.Item key=\x7bindex\x7d disabled=\x7bitem.disabled\x7d>\n"
    ++ "                  \x7b(\x7b active, disabled \x7d) => (\n"
    ++ "                    <button\n"
    ++ "                      onClick=\x7bitem.onClick\x7d\n"
    ++ "                      className=\x7bcn(\n"
    ++ "                        \"flex w-full items-center px-4 py-2 text-sm\",\n"
    ++ "                        active && \"bg-gray-100\",\n"
    ++ "                        disabled && \"cursor-not-allowed opacity-50\"\n"
    ++ "                      )\x7d\n"
    ++ "                    >\n"
    ++ "                      \x7bitem.icon && <span className=\"mr-3\">\x7bitem.icon\x7d</span>\x7d\n"
    ++ "                      \x7bitem.label\x7d\n"
    ++ "                    </button>\n"
    ++ "                  )\x7d\n"
    ++ "                </Menu.Item>\n"
    ++ "              )\n"
    ++ "            )\x7d\n"
    ++ "          </div>\n"
    ++ "        </Menu.Items>\n"
    ++ "      </Transition>\n"
    ++ "    </Menu>\n"
    ++ "  );\n"
    ++ "\x7d"

/-- Template string for the `select` entry of the `headless` scaffolder,
transliterated from src/index.ts (the TS interpolation of the component
name becomes the `name` argument). -/
def headless_select (name : String) : String :=
  "import \x7b Listbox, Transition \x7d from \"@headlessui/react\";\n"
    ++ "import \x7b Fragment, useState \x7d from \"react\";\n"
    ++ "import \x7b cn \x7d from \"@/lib/utils\";\n"
    ++ "import \x7b CheckIcon, ChevronUpDownIcon \x7d from \"@heroicons/react/20/solid\";\n"
    ++ "\n"
    ++ "interface Option \x7b\n"
    ++ "  id: string | number;\n"
    ++ "  name: string;\n"
    ++ "  disabled?: boolean;\n"
    ++ "\x7d\n"
    ++ "\n"
    ++ "interface " ++ name ++ "Props \x7b\n"
    ++ "  options: Option[];\n"
    ++ "  value?: Option;\n"
    ++ "  onChange: (value: Option) => void;\n"
    ++ "  label?: string;\n"
    ++ "  placeholder?: string;\n"
    ++ "\x7d\n"
    ++ "\n"
    ++ "export function " ++ name ++ "(\x7b options, value, onChange, label, placeholder = \"Select...\" \x7d: " ++ name ++ "Props) \x7b\n"
    ++ "  return (\n"
    ++ "    <Listbox value=\x7bvalue\x7d onChange=\x7bonChange\x7d>\n"
    ++ "      <div className=\"relative\">\n"
    ++ "        \x7blabel && (\n"
    ++ "          <Listbox.Label className=\"block text-sm font-medium text-gray-700 mb-1\">\n"
    ++ "            \x7blabel\x7d\n"
    ++ "          </Listbox.Label>\n"
    ++ "        )\x7d\n"
    ++ "        <Listbox.Button className=\"relative w-full cursor-default rounded-lg bg-white py-2 pl-3 pr-10 text-left border border-gray-300 focus:outline-none focus:ring-2 focus:ring-blue-500 focus:border-blue-500 sm:text-sm\">\n"
    ++ "          <span className=\"block truncate\">\x7bvalue?.name || placeholder\x7d</span>\n"
    ++ "          <span className=\"pointer-events-none absolute inset-y-0 right-0 flex items-center pr-2\">\n"
    ++ "            <ChevronUpDownIcon className=\"h-5 w-5 text-gray-400\" aria-hidden=\"true\" />\n"
    ++ "          </span>\n"
    ++ "        </Listbox.Button>\n"
    ++ "        <Transition\n"
    ++ "          as=\x7bFragment\x7d\n"
    ++ "          leave=\"transition ease-in duration-100\"\n"
    ++ "          leaveFrom=\"opacity-100\"\n"
    ++ "          leaveTo=\"opacity-0\"\n"
    ++ "        >\n"
    ++ "          <Listbox.Options className=\"absolute z-10 mt-1 max-h-60 w-full overflow-auto rounded-md bg-white py-1 text-base shadow-lg ring-1 ring-black ring-opacity-5 focus:outline-none sm:text-sm\">\n"
    ++ "            \x7boptions.map((option) => (\n"
    ++ "              <Listbox.Option\n"
    ++ "                key=\x7boption.id\x7d\n"
    ++ "                value=\x7boption\x7d\n"
    ++ "                disabled=\x7boption.disabled\x7d\n"
    ++ "                className=\x7b(\x7b active, disabled \x7d) =>\n"
    ++ "                  cn(\n"
    ++ "                    \"relative cursor-default select-none py-2 pl-10 pr-4\",\n"
    ++ "                    active ? \"bg-blue-100 text-blue-900\" : \"text-gray-900\",\n"
    ++ "                    disabled && \"opacity-50 cursor-not-allowed\"\n"
    ++ "                  )\n"
    ++ "                \x7d\n"
    ++ "              >\n"
    ++ "                \x7b(\x7b selected \x7d) => (\n"
    ++ "                  <>\n"
    ++ "                    <span className=\x7bcn(\"block truncate\", selected && \"font-medium\")\x7d>\n"
    ++ "                      \x7boption.name\x7d\n"
    ++ "                    </span>\n"
    ++ "                    \x7bselected && (\n"
    ++ "                      <span className=\"absolute inset-y-0 left-0 flex items-center pl-3 text-blue-600\">\n"
    ++ "                        <CheckIcon className=\"h-5 w-5\" aria-hidden=\"true\" />\n"
    ++ "                      </span>\n"
    ++ "                    )\x7d\n"
    ++ "                  </>\n"
    ++ "                )\x7d\n"
    ++ "              </Listbox.Option>\n"
    ++ "            ))\x7d\n"
    ++ "          </Listbox.Options>\n"
    ++ "        </Transition>\n"
    ++ "      </div>\n"
    ++ "    </Listbox>\n"
    ++ "  );\n"
    ++ "\x7d"

/-- Template string for the `input` entry of the `headless` scaffolder,
transliterated from src/index.ts (the TS interpolation of the component
name becomes the `name` argument). -/
def headless_input (name : String) : String :=
  "import \x7b cn \x7d from \"@/lib/utils\";\n"
    ++ "import \x7b forwardRef \x7d from \"react\";\n"
    ++ "\n"
    ++ "interface " ++ name ++ "Props extends React.InputHTMLAttributes<HTMLInputElement> \x7b\n"
    ++ "  label?: string;\n"
    ++ "  error?: string;\n"
    ++ "  helperText?: string;\n"
    ++ "\x7d\n"
    ++ "\n"
    ++ "export const " ++ name ++ " = forwardRef<HTMLInputElement, " ++ name ++ "Props>(\n"
    ++ "  (\x7b label, error, helperText, className, id, ...props \x7d, ref) => \x7b\n"
    ++ "    const inputId = id || label?.toLowerCase().replace(/\\s+/g, \"-\");\n"
    ++ "\n"
    ++ "    return (\n"
    ++ "      <div className=\"flex flex-col gap-1.5\">\n"
    ++ "        \x7blabel && (\n"
    ++ "          <label htmlFor=\x7binputId\x7d className=\"text-sm font-medium text-gray-700\">\n"
    ++ "            \x7blabel\x7d\n"
    ++ "            \x7bprops.required && <span className=\"ml-1 text-red-500\">*</span>\x7d\n"
    ++ "          </label>\n"
    ++ "        )\x7d\n"
    ++ "        <input\n"
    ++ "          ref=\x7bref\x7d\n"
    ++ "          id=\x7binputId\x7d\n"
    ++ "          className=\x7bcn(\n"
    ++ "            \"flex h-10 w-full rounded-md border bg-white px-3 py-2 text-sm\",\n"
    ++ "            \"placeholder:text-gray-400\",\n"
    ++ "            \"focus:outline-none focus:ring-2 focus:ring-offset-0\",\n"
    ++ "            error\n"
    ++ "              ? \"border-red-300 focus:border-red-500 focus:ring-red-500/20\"\n"
    ++ "              : \"border-gray-300 focus:border-blue-500 focus:ring-blue-500/20\",\n"
    ++ "            \"disabled:cursor-not-allowed disabled:bg-gray-50 disabled:text-gray-500\",\n"
    ++ "            className\n"
    ++ "          )\x7d\n"
    ++ "          \x7b...props\x7d\n"
    ++ "        />\n"
    ++ "        \x7berror && <p className=\"text-sm text-red-600\">\x7berror\x7d</p>\x7d\n"
    ++ "        \x7bhelperText && !error && <p className=\"text-sm text-gray-500\">\x7bhelperText\x7d</p>\x7d\n"
    ++ "      </div>\n"
    ++ "    );\n"
    ++ "  \x7d\n"
    ++ ");\n"
    ++ "\n"
    ++ name ++ ".displayName = \"" ++ name ++ "\";"

/-- Template string for the `card` entry of the `headless` scaffolder,
transliterated from src/index.ts (the TS interpolation of the component
name becomes the `name` argument). -/
def headless_card (name : String) : String :=
  "import \x7b cn \x7d from \"@/lib/utils\";\n"
    ++ "\n"
    ++ "interface " ++ name ++ "Props extends React.HTMLAttributes<HTMLDivElement> \x7b\n"
    ++ "  variant?: \"default\" | \"bordered\" | \"elevated\";\n"
    ++ "  padding?: \"none\" | \"sm\" | \"md\" | \"lg\";\n"
    ++ "\x7d\n"
    ++ "\n"
    ++ "export function " ++ name ++ "(\x7b\n"
    ++ "  children,\n"
    ++ "  variant = \"default\",\n"
    ++ "  padding = \"md\",\n"
    ++ "  className,\n"
    ++ "  ...props\n"
    ++ "\x7d: " ++ name ++ "Props) \x7b\n"
    ++ "  const variants = \x7b\n"
    ++ "    default: \"bg-white border border-gray-200 shadow-sm\",\n"
    ++ "    bordered: \"bg-white border-2 border-gray-200\",\n"
    ++ "    elevated: \"bg-white shadow-lg\",\n"
    ++ "  \x7d;\n"
    ++ "\n"
    ++ "  const paddings = \x7b\n"
    ++ "    none: \"\",\n"
    ++ "    sm: \"p-3\",\n"
    ++ "    md: \"p-4\",\n"
    ++ "    lg: \"p-6\",\n"
    ++ "  \x7d;\n"
    ++ "\n"
    ++ "  return (\n"
    ++ "    <div\n"
    ++ "      className=\x7bcn(\"rounded-lg\", variants[variant], paddings[padding], className)\x7d\n"
    ++ "      \x7b...props\x7d\n"
    ++ "    >\n"
    ++ "      \x7bchildren\x7d\n"
    ++ "    </div>\n"
    ++ "  );\n"
    ++ "\x7d\n"
    ++ "\n"
    ++ "export function " ++ name ++ "Header(\x7b children, className \x7d: \x7b children: React.ReactNode; className?: string \x7d) \x7b\n"
    ++ "  return <div className=\x7bcn(\"mb-4 border-b border-gray-100 pb-4\", className)\x7d>\x7bchildren\x7d</div>;\n"
    ++ "\x7d\n"
    ++ "\n"
    ++ "export function " ++ name ++ "Title(\x7b children, className \x7d: \x7b children: React.ReactNode; className?: string \x7d) \x7b\n"
    ++ "  return <h3 className=\x7bcn(\"text-lg font-semibold text-gray-900\", className)\x7d>\x7bchildren\x7d</h3>;\n"
    ++ "\x7d\n"
    ++ "\n"
    ++ "export function " ++ name ++ "Content(\x7b children, className \x7d: \x7b children: React.ReactNode; className?: string \x7d) \x7b\n"
    ++ "  return <div className=\x7bcn(\"\", className)\x7d>\x7bchildren\x7d</div>;\n"
    ++ "\x7d\n"
    ++ "\n"
    ++ "export function " ++ name ++ "Footer(\x7b children, className \x7d: \x7b children: React.ReactNode; className?: string \x7d) \x7b\n"
    ++ "  return <div className=\x7bcn(\"mt-4 flex items-center justify-end gap-2 border-t border-gray-100 pt-4\", className)\x7d>\x7bchildren\x7d</div>;\n"
    ++ "\x7d"

/-- Template string for the `alert` entry of the `headless` scaffolder,
transliterated from src/index.ts (the TS interpolation of the component
name becomes the `name` argument). -/
def headless_alert (name : String) : String :=
  "import \x7b cn \x7d from \"@/lib/utils\";\n"
    ++ "\n"
    ++ "interface " ++ name ++ "Props \x7b\n"
    ++ "  variant?: \"info\" | \"success\" | \"warning\" | \"error\";\n"
    ++ "  title?: string;\n"
    ++ "  children: React.ReactNode;\n"
    ++ "  onClose?: () => void;\n"
    ++ "\x7d\n"
    ++ "\n"
    ++ "const variants = \x7b\n"
    ++ "  info: \x7b bg: \"bg-blue-50\", border: \"border-blue-200\", text: \"text-blue-800\", icon: \"text-blue-500\" \x7d,\n"
    ++ "  success: \x7b bg: \"bg-green-50\", border: \"border-green-200\", text: \"text-green-800\", icon: \"text-green-500\" \x7d,\n"
    ++ "  warning: \x7b bg: \"bg-yellow-50\", border: \"border-yellow-200\", text: \"text-yellow-800\", icon: \"text-yellow-500\" \x7d,\n"
    ++ "  error: \x7b bg: \"bg-red-50\", border: \"border-red-200\", text: \"text-red-800\", icon: \"text-red-500\" \x7d,\n"
    ++ "\x7d;\n"
    ++ "\n"
    ++ "const icons = \x7b\n"
    ++ "  info: (\n"
    ++ "    <svg className=\"h-5 w-5\" viewBox=\"0 0 20 20\" fill=\"currentColor\">\n"
    ++ "      <path fillRule=\"evenodd\" d=\"M18 10a8 8 0 11-16 0 8 8 0 0116 0zm-7-4a1 1 0 11-2 0 1 1 0 012 0zM9 9a1 1 0 000 2v3a1 1 0 001 1h1a1 1 0 100-2v-3a1 1 0 00-1-1H9z\" clipRule=\"evenodd\" />\n"
    ++ "    </svg>\n"
    ++ "  ),\n"
    ++ "  success: (\n"
    ++ "    <svg className=\"h-5 w-5\" viewBox=\"0 0 20 20\" fill=\"currentColor\">\n"
    ++ "      <path fillRule=\"evenodd\" d=\"M10 18a8 8 0 100-16 8 8 0 000 16zm3.707-9.293a1 1 0 00-1.414-1.414L9 10.586 7.707 9.293a1 1 0 00-1.414 1.414l2 2a1 1 0 001.414 0l4-4z\" clipRule=\"evenodd\" />\n"
    ++ "    </svg>\n"
    ++ "  ),\n"
    ++ "  warning: (\n"
    ++ "    <svg className=\"h-5 w-5\" viewBox=\"0 0 20 20\" fill=\"currentColor\">\n"
    ++ "      <path fillRule=\"evenodd\" d=\"M8.257 3.099c.765-1.36 2.722-1.36 3.486 0l5.58 9.92c.75 1.334-.213 2.98-1.742 2.98H4.42c-1.53 0-2.493-1.646-1.743-2.98l5.58-9.92zM11 13a1 1 0 11-2 0 1 1 0 012 0zm-1-8a1 1 0 00-1 1v3a1 1 0 002 0V6a1 1 0 00-1-1z\" clipRule=\"evenodd\" />\n"
    ++ "    </svg>\n"
    ++ "  ),\n"
    ++ "  error: (\n"
    ++ "    <svg className=\"h-5 w-5\" viewBox=\"0 0 20 20\" fill=\"currentColor\">\n"
    ++ "      <path fillRule=\"evenodd\" d=\"M10 18a8 8 0 100-16 8 8 0 000 16zM8.707 7.293a1 1 0 00-1.414 1.414L8.586 10l-1.293 1.293a1 1 0 101.414 1.414L10 11.414l1.293 1.293a1 1 0 001.414-1.414L11.414 10l1.293-1.293a1 1 0 00-1.414-1.414L10 8.586 8.707 7.293z\" clipRule=\"evenodd\" />\n"
    ++ "    </svg>\n"
    ++ "  ),\n"
    ++ "\x7d;\n"
    ++ "\n"
    ++ "export function " ++ name ++ "(\x7b variant = \"info\", title, children, onClose \x7d: " ++ name ++ "Props) \x7b\n"
    ++ "  const styles = variants[variant];\n"
    ++ "\n"
    ++ "  return (\n"
    ++ "    <div className=\x7bcn(\"relative rounded-lg border p-4\", styles.bg, styles.border, styles.text)\x7d>\n"
    ++ "      <div className=\"flex\">\n"
    ++ "        <div className=\x7bcn(\"flex-shrink-0\", styles.icon)\x7d>\x7bicons[variant]\x7d</div>\n"
    ++ "        <div className=\"ml-3\">\n"
    ++ "          \x7btitle && <h3 className=\"font-medium\">\x7btitle\x7d</h3>\x7d\n"
    ++ "          <div className=\x7bcn(\"text-sm\", title && \"mt-1\")\x7d>\x7bchildren\x7d</div>\n"
    ++ "        </div>\n"
    ++ "        \x7bonClose && (\n"
    ++ "          <button\n"
    ++ "            onClick=\x7bonClose\x7d\n"
    ++ "            className=\"absolute right-2 top-2 rounded p-1.5 opacity-70 hover:opacity-100\"\n"
    ++ "          >\n"
    ++ "            <svg className=\"h-4 w-4\" viewBox=\"0 0 20 20\" fill=\"currentColor\">\n"
    ++ "              <path fillRule=\"evenodd\" d=\"M4.293 4.293a1 1 0 011.414 0L10 8.586l4.293-4.293a1 1 0 111.414 1.414L11.414 10l4.293 4.293a1 1 0 01-1.414 1.414L10 11.414l-4.293 4.293a1 1 0 01-1.414-1.414L8.586 10 4.293 5.707a1 1 0 010-1.414z\" clipRule=\"evenodd\" />\n"
    ++ "            </svg>\n"
    ++ "          </button>\n"
    ++ "        )\x7d\n"
    ++ "      </div>\n"
    ++ "    </div>\n"
    ++ "  );\n"
    ++ "\x7d"

/-- Template string for the `table` entry of the `headless` scaffolder,
transliterated from src/index.ts (the TS interpolation of the component
name becomes the `name` argument). -/
def headless_table (name : String) : String :=
  "import \x7b cn \x7d from \"@/lib/utils\";\n"
    ++ "\n"
    ++ "interface Column<T> \x7b\n"
    ++ "  key: keyof T | string;\n"
    ++ "  header: string;\n"
    ++ "  render?: (value: any, row: T) => React.ReactNode;\n"
    ++ "  className?: string;\n"
    ++ "\x7d\n"
    ++ "\n"
    ++ "interface " ++ name ++ "Props<T extends Record<string, any>> \x7b\n"
    ++ "  data: T[];\n"
    ++ "  columns: Column<T>[];\n"
    ++ "  keyField: keyof T;\n"
    ++ "  onRowClick?: (row: T) => void;\n"
    ++ "  className?: string;\n"
    ++ "  emptyMessage?: string;\n"
    ++ "\x7d\n"
    ++ "\n"
    ++ "export function " ++ name ++ "<T extends Record<string, any>>(\x7b\n"
    ++ "  data,\n"
    ++ "  columns,\n"
    ++ "  keyField,\n"
    ++ "  onRowClick,\n"
    ++ "  className,\n"
    ++ "  emptyMessage = \"No data available\",\n"
    ++ "\x7d: " ++ name ++ "Props<T>) \x7b\n"
    ++ "  return (\n"
    ++ "    <div className=\x7bcn(\"overflow-auto rounded-lg border border-gray-200\", className)\x7d>\n"
    ++ "      <table className=\"min-w-full divide-y divide-gray-200\">\n"
    ++ "        <thead className=\"bg-gray-50\">\n"
    ++ "          <tr>\n"
    ++ "            \x7bcolumns.map((column) => (\n"
    ++ "              <th\n"
    ++ "                key=\x7bString(column.key)\x7d\n"
    ++ "                className=\x7bcn(\n"
    ++ "                  \"px-4 py-3 text-left text-xs font-medium uppercase tracking-wider text-gray-500\",\n"
    ++ "                  column.className\n"
    ++ "                )\x7d\n"
    ++ "              >\n"
    ++ "                \x7bcolumn.header\x7d\n"
    ++ "              </th>\n"
    ++ "            ))\x7d\n"
    ++ "          </tr>\n"
    ++ "        </thead>\n"
    ++ "        <tbody className=\"divide-y divide-gray-200 bg-white\">\n"
    ++ "          \x7bdata.length === 0 ? (\n"
    ++ "            <tr>\n"
    ++ "              <td colSpan=\x7bcolumns.length\x7d className=\"px-4 py-8 text-center text-gray-500\">\n"
    ++ "                \x7bemptyMessage\x7d\n"
    ++ "              </td>\n"
    ++ "            </tr>\n"
    ++ "          ) : (\n"
    ++ "            data.map((row) => (\n"
    ++ "              <tr\n"
    ++ "                key=\x7bString(row[keyField])\x7d\n"
    ++ "                className=\x7bcn(\"transition-colors\", onRowClick && \"cursor-pointer hover:bg-gray-50\")\x7d\n"
    ++ "                onClick=\x7b() => onRowClick?.(row)\x7d\n"
    ++ "              >\n"
    ++ "                \x7bcolumns.map((column) => \x7b\n"
    ++ "                  const value = row[column.key as keyof T];\n"
    ++ "                  return (\n"
    ++ "                    <td key=\x7bString(column.key)\x7d className=\x7bcn(\"px-4 py-3 text-sm text-gray-900\", column.className)\x7d>\n"
    ++ "                      \x7bcolumn.render ? column.render(value, row) : String(value ?? \"\")\x7d\n"
    ++ "                    </td>\n"
    ++ "                  );\n"
    ++ "                \x7d)\x7d\n"
    ++ "              </tr>\n"
    ++ "            ))\n"
    ++ "          )\x7d\n"
    ++ "        </tbody>\n"
    ++ "      </table>\n"
    ++ "    </div>\n"
    ++ "  );\n"
    ++ "\x7d"

/-- The `components` record of the `shadcn` scaffolder: ordered key/template
pairs as declared in src/index.ts. -/
def shadcnComponents (name : String) : List (String × String) :=
  [("button", shadcn_button name),
   ("input", shadcn_input name),
   ("select", shadcn_select name),
   ("modal", shadcn_modal name),
   ("card", shadcn_card name),
   ("alert", shadcn_alert name),
   ("tabs", shadcn_tabs name),
   ("menu", shadcn_menu name),
   ("table", shadcn_table name)]

/-- The `components` record of the `mui` scaffolder: ordered key/template
pairs as declared in src/index.ts. -/
def muiComponents (name : String) : List (String × String) :=
  [("button", mui_button name),
   ("input", mui_input name),
   ("select", mui_select name),
   ("modal", mui_modal name),
   ("card", mui_card name),
   ("alert", mui_alert name),
   ("tabs", mui_tabs name),
   ("menu", mui_menu name),
   ("table", mui_table name)]

/-- The `components` record of the `chakra` scaffolder: ordered key/template
pairs as declared in src/index.ts. -/
def chakraComponents (name : String) : List (String × String) :=
  [("button", chakra_button name),
   ("input", chakra_input name),
   ("select", chakra_select name),
   ("modal", chakra_modal name),
   ("card", chakra_card name),
   ("alert", chakra_alert name),
   ("tabs", chakra_tabs name),
   ("menu", chakra_menu name),
   ("table", chakra_table name)]

/-- The `components` record of the `headless` scaffolder: ordered key/template
pairs as declared in src/index.ts. -/
def headlessComponents (name : String) : List (String × String) :=
  [("button", headless_button name),
   ("modal", headless_modal name),
   ("tabs", headless_tabs name),
   ("menu", headless_menu name),
   ("select", headless_select name),
   ("input", headless_input name),
   ("card", headless_card name),
   ("alert", headless_alert name),
   ("table", headless_table name)]
/-- Association-list lookup embedding the JavaScript record access
`components[componentType]` over the fixed template records (a hit yields the
stored template, a miss yields `none`, i.e. `undefined`). -/
def lookupTpl (k : String) : List (String × String) → Option String
  | [] => none
  | (k', v) :: rest => if k = k' then some v else lookupTpl k rest

/-- `scaffoldShadcnComponent` (src/index.ts lines 348-893): builds the record
of shadcn templates for `name` and returns
`components[componentType] || components.button`.  The `props` and
`withVariants` parameters are declared but never read, exactly as in the
source. -/
def scaffoldShadcnComponent (name componentType : String)
    (props : List PropSpec) ( withVariants : Bool) : String :=
  (lookupTpl componentType (shadcnComponents name)).getD (shadcn_button name)

/-- `scaffoldMuiComponent` (src/index.ts lines 895-1558): MUI template record
plus the same `|| components.button` fallback; `props` is never read. -/
def scaffoldMuiComponent (name componentType : String)
    (props : List PropSpec) : String :=
  (lookupTpl componentType (muiComponents name)).getD (mui_button name)

/-- `scaffoldChakraComponent` (src/index.ts lines 1560-2016): Chakra template
record plus the same `|| components.button` fallback; `props` is never read. -/
def scaffoldChakraComponent (name componentType : String)
    (props : List PropSpec) : String :=
  (lookupTpl componentType (chakraComponents name)).getD (chakra_button name)

/-- `scaffoldHeadlessComponent` (src/index.ts lines 2018-2565): Headless UI
template record (`patterns`) plus the `|| patterns.button` fallback; `props`
is never read. -/
def scaffoldHeadlessComponent (name componentType : String)
    (props : List PropSpec) : String :=
  (lookupTpl componentType (headlessComponents name)).getD (headless_button name)

/-- `scaffoldCustomComponent` (src/index.ts lines 2567-2575): delegates to the
Headless/Tailwind scaffolder; `withVariants` is declared but never read. -/
def scaffoldCustomComponent (name componentType : String)
    (props : List PropSpec) ( withVariants : Bool) : String :=
  scaffoldHeadlessComponent name componentType props

/-- `scaffoldMultiLibraryComponent` (src/index.ts lines 327-346): the
dispatcher.  A `switch` over the library identifier whose `default` branch
(everything other than `"shadcn"`, `"mui"`, `"chakra"`, `"headless"`,
including `"custom"` and unrecognized identifiers) goes to the custom
scaffolder. -/
def scaffoldMultiLibraryComponent (name library componentType : String)
    (props : List PropSpec) ( withVariants : Bool) : String :=
  match library with
  | "shadcn" => scaffoldShadcnComponent name componentType props withVariants
  | "mui" => scaffoldMuiComponent name componentType props
  | "chakra" => scaffoldChakraComponent name componentType props
  | "headless" => scaffoldHeadlessComponent name componentType props
  | _ => scaffoldCustomComponent name componentType props withVariants

/-- The `scaffold_component` tool handler (src/index.ts lines 148-177): no
`try`/`catch`, it always wraps the scaffolded source in a non-error result. -/
def scaffold_component (name library componentType : String)
    (props : List PropSpec) ( withVariants : Bool) : ToolResult :=
  ⟨scaffoldMultiLibraryComponent name library componentType props withVariants,
   false⟩

/-- The path `path.join(DATA_DIR, "components", library, category,
`${name}.tsx`)` used by `get_component` (src/index.ts line 90); the runtime
`DATA_DIR` prefix is abbreviated to `data`. -/
def componentPath (library category name : String) : String :=
  "data/components/" ++ library ++ "/" ++ category ++ "/" ++ name ++ ".tsx"

/-- `getInlineComponent` (src/index.ts lines 3208-3211): always returns
`null`. -/
def getInlineComponent (library category name : String) : Option String :=
  none

/-- The `get_component` tool handler (src/index.ts lines 88-107).  `readFile`
stands for `fs.readFile`: `some` is a successful read, `none` a thrown read
error (caught by the handler's `try`/`catch`).  On a failed read the handler
consults `getInlineComponent` and otherwise reports an error result. -/
def get_component (readFile : String → Option String)
    (library category name : String) : ToolResult :=
  match readFile (componentPath library category name) with
  | some content => ⟨content, false⟩
  | none =>
    match getInlineComponent library category name with
    | some inline => ⟨inline, false⟩
    | none =>
      ⟨"Component not found: " ++ library ++ "/" ++ category ++ "/" ++ name,
       true⟩

/-- The `get_design_tokens` tool handler (src/index.ts lines 272-303).
`readFile` stands for the `fs.readFile` of `data/tokens/design-tokens.json`
(`Except.error` carries the thrown error's message); `parseJson` stands for
`JSON.parse`, and `render` for the token selection plus formatting applied to
the parsed document on the success path (the parsed JSON document type is the
parameter `α`).  Any throw inside the `try` lands in the single `catch`,
which reports an error result. -/
def get_design_tokens {α : Type} (readFile : Except String String)
    (parseJson : String → Except String α) (render : α → String) : ToolResult :=
  match readFile with
  | Except.error e => ⟨"Error reading design tokens: " ++ e, true⟩
  | Except.ok content =>
    match parseJson content with
    | Except.error e => ⟨"Error reading design tokens: " ++ e, true⟩
    | Except.ok tokens => ⟨render tokens, false⟩

/-- A `cva(base, {variants, defaultVariants})` configuration as written in the
shadcn templates: the base class string, the ordered variant axes (axis name
paired with its ordered value/class list), and the `defaultVariants` record. -/
structure CvaConfig where
  base : String
  variants : List (String × List (String × String))
  defaultVariants : List (String × String)
deriving DecidableEq

/-- The `buttonVariants` cva configuration in the shadcn button template
(src/index.ts lines 360-384), transliterated field by field. -/
def buttonVariantsConfig : CvaConfig where
  base := "inline-flex items-center justify-center whitespace-nowrap rounded-md text-sm font-medium ring-offset-background transition-colors focus-visible:outline-none focus-visible:ring-2 focus-visible:ring-ring focus-visible:ring-offset-2 disabled:pointer-events-none disabled:opacity-50"
  variants :=
    [("variant",
      [("default", "bg-primary text-primary-foreground hover:bg-primary/90"),
       ("destructive", "bg-destructive text-destructive-foreground hover:bg-destructive/90"),
       ("outline", "border border-input bg-background hover:bg-accent hover:text-accent-foreground"),
       ("secondary", "bg-secondary text-secondary-foreground hover:bg-secondary/80"),
       ("ghost", "hover:bg-accent hover:text-accent-foreground"),
       ("link", "text-primary underline-offset-4 hover:underline")]),
     ("size",
      [("default", "h-10 px-4 py-2"),
       ("sm", "h-9 rounded-md px-3"),
       ("lg", "h-11 rounded-md px-8"),
       ("icon", "h-10 w-10")])]
  defaultVariants := [("variant", "default"), ("size", "default")]

/-- The `alertVariants` cva configuration in the shadcn alert template
(src/index.ts lines 673-686), transliterated field by field. -/
def alertVariantsConfig : CvaConfig where
  base := "relative w-full rounded-lg border p-4 [&>svg~*]:pl-7 [&>svg+div]:translate-y-[-3px] [&>svg]:absolute [&>svg]:left-4 [&>svg]:top-4 [&>svg]:text-foreground"
  variants :=
    [("variant",
      [("default", "bg-background text-foreground"),
       ("destructive", "border-destructive/50 text-destructive dark:border-destructive [&>svg]:text-destructive")])]
  defaultVariants := [("variant", "default")]

/-- A slice of `len` characters of `s` starting at character index `start`;
used to exhibit concrete fragments of generated sources. -/
def sliceOf (s : String) (start len : Nat) : List Char :=
  (s.data.drop start).take len
set_option maxRecDepth 100000

/-! ## Shared helper lemmas -/

/-- The component types that every scaffolder's template record declares
(each of the four records has exactly these nine keys). -/
def templateKeys : List String :=
  ["button", "input", "select", "modal", "card", "alert", "tabs", "menu", "table"]

theorem lookupTpl_eq_none (k : String) :
    ∀ l : List (String × String), k ∉ l.map Prod.fst → lookupTpl k l = none := by
  intro l
  induction l with
  | nil => intro _; rfl
  | cons hd tl ih =>
    intro h
    simp only [List.map_cons, List.mem_cons, not_or] at h
    obtain ⟨h1, h2⟩ := h
    cases hd with
    | mk k' v =>
      unfold lookupTpl
      rw [if_neg h1]
      exact ih h2

theorem shadcn_fallback_button (name componentType : String)
    (props : List PropSpec) ( withVariants : Bool) (h : componentType ∉ templateKeys) :
    scaffoldShadcnComponent name componentType props withVariants = shadcn_button name := by
  unfold scaffoldShadcnComponent
  rw [lookupTpl_eq_none componentType (shadcnComponents name)
    (by simpa [shadcnComponents, templateKeys] using h)]
  rfl

theorem mui_fallback_button (name componentType : String)
    (props : List PropSpec) (h : componentType ∉ templateKeys) :
    scaffoldMuiComponent name componentType props = mui_button name := by
  unfold scaffoldMuiComponent
  rw [lookupTpl_eq_none componentType (muiComponents name)
    (by simpa [muiComponents, templateKeys] using h)]
  rfl

theorem chakra_fallback_button (name componentType : String)
    (props : List PropSpec) (h : componentType ∉ templateKeys) :
    scaffoldChakraComponent name componentType props = chakra_button name := by
  unfold scaffoldChakraComponent
  rw [lookupTpl_eq_none componentType (chakraComponents name)
    (by simpa [chakraComponents, templateKeys] using h)]
  rfl

theorem headless_fallback_button (name componentType : String)
    (props : List PropSpec) (h : componentType ∉ templateKeys) :
    scaffoldHeadlessComponent name componentType props = headless_button name := by
  unfold scaffoldHeadlessComponent
  have h' : componentType ∉ (headlessComponents name).map Prod.fst := by
    simp only [templateKeys, List.mem_cons, List.not_mem_nil, or_false, not_or] at h
    simp only [headlessComponents, List.map_cons, List.map_nil, List.mem_cons,
      List.not_mem_nil, or_false, not_or]
    tauto
  rw [lookupTpl_eq_none componentType (headlessComponents name) h']
  rfl

/-! ## Claim C1 -/

/-- C1 counterexample: the claim says an unrecognized library identifier is
dispatched to the first (shadcn / utility-CSS) backend's output.  At the
unrecognized identifier `"react-tailwind"` the dispatcher's output differs
from the shadcn backend's output for the same request, so the claim is false
(the `default` branch goes to the custom scaffolder, which delegates to the
Headless UI templates). -/
theorem c1_counterexample :
    scaffoldMultiLibraryComponent "Button" "react-tailwind" "button" [] true ≠
      scaffoldShadcnComponent "Button" "button" [] true := by
  intro h
  exact absurd (congrArg (fun s => sliceOf s 0 12) h) (by decide)

/-- C1 (amended): a generation request whose library identifier is not one of
the recognized identifiers is dispatched to the custom scaffolder (the
`default` switch branch, which delegates to the Headless UI templates), and
the `scaffold_component` tool never returns a failure result for it. -/
theorem c1_unrecognized_library_falls_back_to_custom
    (name lib componentType : String) (props : List PropSpec) ( withVariants : Bool)
    (h : lib ∉ LIBRARIES) :
    scaffoldMultiLibraryComponent name lib componentType props withVariants =
      scaffoldCustomComponent name componentType props withVariants ∧
    (scaffold_component name lib componentType props withVariants).isError = false := by
  have hd : scaffoldMultiLibraryComponent name lib componentType props withVariants =
      scaffoldCustomComponent name componentType props withVariants := by
    unfold scaffoldMultiLibraryComponent
    split <;> simp_all [LIBRARIES]
  exact ⟨hd, rfl⟩

/-- C1 witness: the amended claim at the concrete unrecognized identifier
`"react-tailwind"`. -/
theorem c1_witness :
    scaffoldMultiLibraryComponent "Button" "react-tailwind" "button" [] true =
      scaffoldCustomComponent "Button" "button" [] true ∧
    (scaffold_component "Button" "react-tailwind" "button" [] true).isError = false :=
  c1_unrecognized_library_falls_back_to_custom "Button" "react-tailwind" "button" [] true
    (by decide)

/-! ## Claim C2 -/

/-- C2 counterexample: the claim says the recognized identifier set has
exactly six members; `LIBRARIES` has five. -/
theorem c2_counterexample : LIBRARIES.length ≠ 6 := by decide

/-- C2 (amended): the recognized library identifier set `LIBRARIES` contains
exactly five distinct fixed identifiers, and the dispatcher routes each of
the five to its backend (`"custom"` through the `default` branch). -/
theorem c2_exactly_five_recognized_targets :
    LIBRARIES.length = 5 ∧ LIBRARIES.Nodup ∧
    ∀ (name componentType : String) (props : List PropSpec) (w : Bool),
      scaffoldMultiLibraryComponent name "shadcn" componentType props w =
        scaffoldShadcnComponent name componentType props w ∧
      scaffoldMultiLibraryComponent name "mui" componentType props w =
        scaffoldMuiComponent name componentType props ∧
      scaffoldMultiLibraryComponent name "chakra" componentType props w =
        scaffoldChakraComponent name componentType props ∧
      scaffoldMultiLibraryComponent name "headless" componentType props w =
        scaffoldHeadlessComponent name componentType props ∧
      scaffoldMultiLibraryComponent name "custom" componentType props w =
        scaffoldCustomComponent name componentType props w := by
  refine ⟨rfl, by decide, ?_⟩
  intro name componentType props w
  exact ⟨rfl, rfl, rfl, rfl, rfl⟩

/-! ## Claim C3 -/

/-- C3: the scaffolding path is total and never signals failure: for every
syntactically valid input the `scaffold_component` handler returns the
dispatcher's string with `isError = false` (there is no failure branch). -/
theorem c3_scaffold_never_fails
    (name library componentType : String) (props : List PropSpec) ( withVariants : Bool) :
    (scaffold_component name library componentType props withVariants).isError = false ∧
    (scaffold_component name library componentType props withVariants).text =
      scaffoldMultiLibraryComponent name library componentType props withVariants :=
  ⟨rfl, rfl⟩

/-! ## Claim C4 -/

/-- C4 counterexample: the claim says the component lookup never returns an
error result.  When the component file read fails (here: a file system on
which every read fails), the inline fallback returns `null` and the handler
returns an error result. -/
theorem c4_counterexample :
    (get_component (fun _ => none) "shadcn" "forms" "Button").isError = true := rfl

/-- C4 (amended): `get_component` returns the stored file content as a
non-error result when the read succeeds; when the read fails it returns an
error result naming the missing component, because the inline fallback
`getInlineComponent` always returns `null` (there is no designated default
entry). -/
theorem c4_file_content_or_error
    (readFile : String → Option String) (library category name : String) :
    (∀ content, readFile (componentPath library category name) = some content →
      get_component readFile library category name = ⟨content, false⟩) ∧
    (readFile (componentPath library category name) = none →
      get_component readFile library category name =
        ⟨"Component not found: " ++ library ++ "/" ++ category ++ "/" ++ name, true⟩) := by
  constructor
  · intro content h
    unfold get_component
    rw [h]
  · intro h
    unfold get_component
    rw [h]
    rfl

/-- C4 witness: the amended claim at a concrete store holding one file. -/
theorem c4_witness :
    get_component (fun _ => some "export const Button = 1") "shadcn" "forms" "Button" =
      ⟨"export const Button = 1", false⟩ :=
  (c4_file_content_or_error (fun _ => some "export const Button = 1")
    "shadcn" "forms" "Button").1 "export const Button = 1" rfl

/-! ## Claim C5 -/

/-- C5: in every cva variant table the generated sources declare (the
`buttonVariants` table of the shadcn button template and the `alertVariants`
table of the shadcn alert template), the `defaultVariants` value recorded
for each axis equals the first declared value of that axis. -/
theorem c5_default_variant_is_first_declared
    (c : CvaConfig) (hc : c ∈ [buttonVariantsConfig, alertVariantsConfig])
    (axis : String) (vals : List (String × String))
    (hax : (axis, vals) ∈ c.variants) :
    lookupTpl axis c.defaultVariants = vals.head?.map Prod.fst := by
  simp only [List.mem_cons, List.not_mem_nil, or_false] at hc
  rcases hc with rfl | rfl
  · simp only [buttonVariantsConfig, List.mem_cons, List.not_mem_nil, or_false,
      Prod.mk.injEq] at hax
    rcases hax with ⟨rfl, rfl⟩ | ⟨rfl, rfl⟩ <;> decide
  · simp only [alertVariantsConfig, List.mem_cons, List.not_mem_nil, or_false,
      Prod.mk.injEq] at hax
    obtain ⟨rfl, rfl⟩ := hax
    decide

/-- C5 witness: the `variant` axis of the alert template's cva table defaults
to `"default"`, its first declared value. -/
theorem c5_witness :
    lookupTpl "variant" alertVariantsConfig.defaultVariants = some "default" :=
  c5_default_variant_is_first_declared alertVariantsConfig
    (List.mem_cons_of_mem _ (List.mem_cons_self _ _))
    "variant"
    [("default", "bg-background text-foreground"),
     ("destructive", "border-destructive/50 text-destructive dark:border-destructive [&>svg]:text-destructive")]
    (List.mem_cons_self _ _)

/-! ## Claim C6 -/

/-- C6 counterexample: the claim says that with the variant system disabled
no backend output contains a variant-table construct or variant-typed prop
fields.  With `withVariants = false` the shadcn button output still declares
the `cva` variant table (characters 175..201 read
`const buttonVariants = cva(`) and a variant-typed props field (characters
1347..1381 read `VariantProps<typeof buttonVariants>`). -/
theorem c6_counterexample :
    sliceOf (scaffoldMultiLibraryComponent "Badge" "shadcn" "button" [] false) 175 27 =
      "const buttonVariants = cva(".data ∧
    sliceOf (scaffoldMultiLibraryComponent "Badge" "shadcn" "button" [] false) 1347 35 =
      "VariantProps<typeof buttonVariants>".data :=
  ⟨by decide, by decide⟩

/-- C6 (amended): the `withVariants` flag is accepted but never read, so no
backend's output depends on it; templates that contain variant constructs
emit them even when the flag is false. -/
theorem c6_withVariants_has_no_effect
    (name library componentType : String) (props : List PropSpec) (w₁ w₂ : Bool) :
    scaffoldMultiLibraryComponent name library componentType props w₁ =
      scaffoldMultiLibraryComponent name library componentType props w₂ := by
  unfold scaffoldMultiLibraryComponent
  split <;> rfl

/-! ## Claim C7 -/

/-- C7 counterexample: the claim says a failed token-file read yields a
built-in default token set as a successful result.  When the read fails the
handler returns an error result instead. -/
theorem c7_counterexample :
    (@get_design_tokens Unit (Except.error "ENOENT: no such file or directory")
      (fun _ => Except.ok ()) (fun _ => "")).isError = true := rfl

/-- C7 (amended): when the token-file read fails, `get_design_tokens` returns
an error result carrying the read error's message; no built-in default token
set exists in the handler. -/
theorem c7_read_failure_returns_error {α : Type} (e : String)
    (parseJson : String → Except String α) (render : α → String) :
    get_design_tokens (Except.error e) parseJson render =
      ⟨"Error reading design tokens: " ++ e, true⟩ := rfl

/-! ## Claim C8 -/

/-- C8: generation is deterministic — two calls of the dispatcher with
componentwise identical arguments produce identical output strings (the
embedding is a pure function of its arguments, with no other state). -/
theorem c8_generation_deterministic
    (n₁ n₂ l₁ l₂ c₁ c₂ : String) (p₁ p₂ : List PropSpec) (w₁ w₂ : Bool)
    (hn : n₁ = n₂) (hl : l₁ = l₂) (hc : c₁ = c₂) (hp : p₁ = p₂) (hw : w₁ = w₂) :
    scaffoldMultiLibraryComponent n₁ l₁ c₁ p₁ w₁ =
      scaffoldMultiLibraryComponent n₂ l₂ c₂ p₂ w₂ := by
  subst hn hl hc hp hw
  rfl

/-- C8 witness: two identical calls at a concrete request agree. -/
theorem c8_witness :
    scaffoldMultiLibraryComponent "Card" "chakra" "card" [] true =
      scaffoldMultiLibraryComponent "Card" "chakra" "card" [] true :=
  c8_generation_deterministic "Card" "Card" "chakra" "chakra" "card" "card"
    [] [] true true rfl rfl rfl rfl rfl

/-! ## Claim C9 -/

/-- C9: the scaffolded source is independent of the caller-supplied `props`
list — every per-library scaffolder accepts the parameter but never reads
it, so any two props lists yield character-for-character identical output. -/
theorem c9_props_never_used
    (name library componentType : String) (props₁ props₂ : List PropSpec)
    ( withVariants : Bool) :
    scaffoldMultiLibraryComponent name library componentType props₁ withVariants =
      scaffoldMultiLibraryComponent name library componentType props₂ withVariants := by
  unfold scaffoldMultiLibraryComponent
  split <;> rfl

/-! ## Claim C10 -/

/-- C10: a component type accepted by the tool schema but absent from the
template records (any key outside `templateKeys`, e.g. `badge`, `avatar`,
`tooltip`) scaffolds to the same output as the `button` component type, for
every library — the `|| components.button` fallback, never an error or an
empty result. -/
theorem c10_unknown_component_type_falls_back_to_button
    (name library componentType : String) (props : List PropSpec) ( withVariants : Bool)
    (h : componentType ∉ templateKeys) :
    scaffoldMultiLibraryComponent name library componentType props withVariants =
      scaffoldMultiLibraryComponent name library "button" props withVariants := by
  unfold scaffoldMultiLibraryComponent
  split
  · rw [shadcn_fallback_button name componentType props _ h]
    rfl
  · rw [mui_fallback_button name componentType props h]
    rfl
  · rw [chakra_fallback_button name componentType props h]
    rfl
  · rw [headless_fallback_button name componentType props h]
    rfl
  · unfold scaffoldCustomComponent
    rw [headless_fallback_button name componentType props h]
    rfl

/-- C10 witness: the schema-accepted component type `badge` (absent from
every template record) scaffolds to the button template for the mui
library. -/
theorem c10_witness :
    scaffoldMultiLibraryComponent "Chip" "mui" "badge" [] true =
      scaffoldMultiLibraryComponent "Chip" "mui" "button" [] true :=
  c10_unknown_component_type_falls_back_to_button "Chip" "mui" "badge" [] true (by decide)
